import Mathlib

/-!
Shallow embedding of the frame-tree and execution-context manager
(`FrameManager` / `Frame` in the source) of a browser-automation client.

JavaScript objects have reference identity and mutable fields.  We model
them with arenas: `Frame`, `DOMWorld` and `ExecutionContext` objects live
in heaps keyed by natural-number references (`Ref`); the `#frames` index
(a JS `Map<string, Frame>`) is a function map from frame-id strings to
refs; the `#contextIdToContext` map is an association list, because the
source iterates its entries in insertion order.  Sessions (`CDPSession`)
are identified by their id strings.  `assert` failures are modelled by
`Option.none` in handlers and by `FatalOr.fatal` in query operations.
Recursive tree walks take a fuel argument modelling the JS call stack.
-/

/-- Session identifier (the string returned by `CDPSession.id()`). -/
abbrev SessionId := String

/-- Arena reference standing for a JS object identity. -/
abbrev Ref := Nat

/-- State of one `DOMWorld`.  Modelled from the spec: the `DOMWorld` class
is not part of the given sources; per the spec a World is bound to one
Frame, holds at most one live Execution Context (`_hasContext` /
`_setContext`), and can be detached. -/
structure WorldData where
  frameRef : Ref
  context : Option Ref
  detached : Bool
deriving DecidableEq

/-- Mutable fields of a `Frame` object. -/
structure FrameData where
  id : String
  parent : Option Ref
  url : String
  name : Option String
  loaderId : String
  lifecycleEvents : List String
  hasStartedLoading : Bool
  detached : Bool
  client : SessionId
  mainWorld : Ref
  secondaryWorld : Ref
  childFrames : List Ref
deriving DecidableEq

/-- Fields of an `ExecutionContext` object.  Modelled from the spec: the
`ExecutionContext` class is not part of the given sources; per the spec a
context carries its originating session (`_client`), its numeric protocol
id, and a weak back-reference to the World it is bound to, if any. -/
structure CtxData where
  client : SessionId
  ctxId : Nat
  world : Option Ref
deriving DecidableEq

/-- Events emitted by the manager (`FrameManagerEmittedEvents`). -/
inductive FMEvent where
  | frameAttached (r : Ref)
  | frameNavigated (r : Ref)
  | frameNavigatedWithinDocument (r : Ref)
  | frameDetached (r : Ref)
  | frameSwapped (r : Option Ref)
  | lifecycleEvent (r : Ref)
deriving DecidableEq

/-- The whole mutable state of one `FrameManager` together with the object
heaps.  `client` is the id of the manager's own session (`#client`);
`frames` is the `#frames` index; `contexts` is `#contextIdToContext`. -/
structure FMState where
  client : SessionId
  frames : String → Option Ref
  frameStore : Ref → Option FrameData
  worldStore : Ref → Option WorldData
  ctxStore : Ref → Option CtxData
  contexts : List (String × Ref)
  mainFrame : Option Ref
  nextFrameRef : Ref
  nextWorldRef : Ref
  nextCtxRef : Ref
  events : List FMEvent

/-- Payload of a `Page.frameNavigated` event (`Protocol.Page.Frame`). -/
structure FramePayload where
  id : String
  parentId : Option String
  url : String
  urlFragment : Option String
  name : Option String
deriving DecidableEq

/-- The `auxData` attached to an execution-context description. -/
structure AuxData where
  frameId : Option String
  isDefault : Bool
deriving DecidableEq

/-- Payload of a `Runtime.executionContextCreated` event
(`Protocol.Runtime.ExecutionContextDescription`). -/
structure CtxPayload where
  id : Nat
  name : String
  auxData : Option AuxData
deriving DecidableEq

/-- Result of an operation that can fail a fatal `assert`. -/
inductive FatalOr (α : Type) where
  | fatal (msg : String)
  | ok (a : α)
deriving DecidableEq

/-- The reserved utility-world name (`UTILITY_WORLD_NAME`). -/
def UTILITY_WORLD_NAME : String := "__puppeteer_utility_world__"

/-- Lookup in a JS `Map` modelled as an association list. -/
def ctxGet (m : List (String × Ref)) (k : String) : Option Ref :=
  match m with
  | [] => none
  | (k1, v) :: rest => if k1 = k then some v else ctxGet rest k

/-- `Map.set`: replace in place if the key is present, append otherwise. -/
def ctxSet (m : List (String × Ref)) (k : String) (v : Ref) : List (String × Ref) :=
  match m with
  | [] => [(k, v)]
  | (k1, v1) :: rest =>
    if k1 = k then (k1, v) :: rest else (k1, v1) :: ctxSet rest k v

/-- `Map.delete`. -/
def ctxDelete (m : List (String × Ref)) (k : String) : List (String × Ref) :=
  m.filter (fun e => ¬ e.1 = k)

/-- The composite key `session.id() ++ ":" ++ contextId` used for the
`#contextIdToContext` map. -/
def contextKey (sid : SessionId) (ctxId : Nat) : String :=
  sid ++ ":" ++ toString ctxId

/-- Update one frame entry of the heap in place. -/
def setFrame (s : FMState) (r : Ref) (f : FrameData → FrameData) : FMState :=
  { s with frameStore := fun x =>
      if x = r then (s.frameStore r).map f else s.frameStore x }

/-- World `_detach` (modelled from the spec, see `WorldData`). -/
def setWorldDetached (s : FMState) (w : Ref) : FMState :=
  { s with worldStore := fun x =>
      if x = w then (s.worldStore w).map (fun wd => { wd with detached := true })
      else s.worldStore x }

/-- World `_setContext` (modelled from the spec, see `WorldData`). -/
def setWorldContext (s : FMState) (w : Ref) (c : Option Ref) : FMState :=
  { s with worldStore := fun x =>
      if x = w then (s.worldStore w).map (fun wd => { wd with context := c })
      else s.worldStore x }

/-- World `_hasContext` (modelled from the spec, see `WorldData`). -/
def worldHasContext (s : FMState) (w : Ref) : Bool :=
  match s.worldStore w with
  | some wd => wd.context.isSome
  | none => false

/-- The `_id` field of the frame object behind `r`. -/
def frameIdAt (s : FMState) (r : Ref) : String :=
  match s.frameStore r with
  | some fd => fd.id
  | none => ""

/-- `Frame._updateClient(client)`: rebinds the frame to `session` and
re-creates its two Worlds from it (two fresh `DOMWorld` objects). -/
def updateClient (s : FMState) (r : Ref) (session : SessionId) : FMState :=
  let w1 := s.nextWorldRef
  let w2 := s.nextWorldRef + 1
  let s1 := { s with
    worldStore := fun x =>
      if x = w1 then some ⟨r, none, false⟩
      else if x = w2 then some ⟨r, none, false⟩
      else s.worldStore x,
    nextWorldRef := s.nextWorldRef + 2 }
  setFrame s1 r (fun fd =>
    { fd with client := session, mainWorld := w1, secondaryWorld := w2 })

/-- The `Frame` constructor: allocates the object, registers it with its
parent (if any) and runs `_updateClient`. -/
def newFrame (s : FMState) (parent : Option Ref) (frameId : String)
    (client : SessionId) : FMState × Ref :=
  let r := s.nextFrameRef
  let fd : FrameData :=
    { id := frameId, parent := parent, url := "", name := none,
      loaderId := "", lifecycleEvents := [], hasStartedLoading := false,
      detached := false, client := client, mainWorld := 0,
      secondaryWorld := 0, childFrames := [] }
  let s1 := { s with
    frameStore := fun x => if x = r then some fd else s.frameStore x,
    nextFrameRef := r + 1 }
  let s2 := match parent with
    | some p => setFrame s1 p (fun pf =>
        { pf with childFrames := pf.childFrames ++ [r] })
    | none => s1
  (updateClient s2 r client, r)

/-- `Frame.isOOPFrame()`: the frame runs under a session other than the
manager's own. -/
def isOOPFrame (s : FMState) (r : Ref) : Bool :=
  match s.frameStore r with
  | some fd => ¬ fd.client = s.client
  | none => false

/-- `Frame._detach()`: marks the frame detached, detaches its worlds,
removes it from its parent's child set and clears the parent pointer. -/
def detachFrame (s : FMState) (r : Ref) : FMState :=
  match s.frameStore r with
  | none => s
  | some fd =>
    let s1 := setFrame s r (fun f => { f with detached := true })
    let s2 := setWorldDetached s1 fd.mainWorld
    let s3 := setWorldDetached s2 fd.secondaryWorld
    let s4 := match fd.parent with
      | some p => setFrame s3 p (fun pf =>
          { pf with childFrames := pf.childFrames.filter (fun c => ¬ c = r) })
      | none => s3
    setFrame s4 r (fun f => { f with parent := none })

/-- Final steps of `#removeFramesRecursively` on one node, after its
children have been removed: `frame._detach()`, then
`this.#frames.delete(frame._id)`, then the `FrameDetached` emit. -/
def removeFinish (s : FMState) (r : Ref) : FMState :=
  let s2 := detachFrame s r
  let s3 := { s2 with frames := fun k =>
    if k = (frameIdAt s2 r) then none else s2.frames k }
  { s3 with events := s3.events ++ [FMEvent.frameDetached r] }

/-- `FrameManager.#removeFramesRecursively(frame)`: post-order removal of
the subtree.  The fuel argument models the JS call stack depth. -/
def removeFramesRecursively : Nat → FMState → Ref → FMState
  | 0, s, _ => s
  | fuel + 1, s, r =>
    match s.frameStore r with
    | none => s
    | some fd =>
      removeFinish
        (fd.childFrames.foldl (fun acc c => removeFramesRecursively fuel acc c) s)
        r

/-- The child-removal loop of `#removeFramesRecursively` and of
`#onFrameNavigated`, as a named function. -/
def removeChildren (fuel : Nat) (s : FMState) (cs : List Ref) : FMState :=
  cs.foldl (fun acc c => removeFramesRecursively fuel acc c) s

/-- Specification-side post-order trace: the refs for which
`removeFramesRecursively` emits `FrameDetached`, in emission order (all
children, recursively, before the node itself). -/
def removedRefs : Nat → FMState → Ref → List Ref
  | 0, _, _ => []
  | fuel + 1, s, r =>
    match s.frameStore r with
    | none => []
    | some fd =>
      (fd.childFrames.foldl
        (fun (acc : FMState × List Ref) c =>
          (removeFramesRecursively fuel acc.1 c,
           acc.2 ++ removedRefs fuel acc.1 c))
        (s, [])).2 ++ [r]

/-- `FrameManager.#onFrameAttached(session, frameId, parentFrameId)`.
A `none` result models an `assert` failure. -/
def onFrameAttached (s : FMState) (session : SessionId) (frameId : String)
    (parentFrameId : Option String) : Option FMState :=
  match s.frames frameId with
  | some r =>
    if isOOPFrame s r then some (updateClient s r session) else some s
  | none =>
    match parentFrameId with
    | none => none
    | some pid =>
      match s.frames pid with
      | none => none
      | some pr =>
        let res := newFrame s (some pr) frameId session
        some { res.1 with
          frames := fun k => if k = frameId then some res.2 else res.1.frames k,
          events := res.1.events ++ [FMEvent.frameAttached res.2] }

/-- `FrameManager.#onFrameDetached(frameId, reason)`. -/
def onFrameDetached (fuel : Nat) (s : FMState) (frameId : String)
    (reason : String) : FMState :=
  let fr := s.frames frameId
  if reason = "remove" then
    match fr with
    | some r => removeFramesRecursively fuel s r
    | none => s
  else if reason = "swap" then
    { s with events := s.events ++ [FMEvent.frameSwapped fr] }
  else s

/-- The existing-main-frame path of `#onFrameNavigated`: delete the old
id key, assign the payload id to the live frame object, re-insert it
under the new id and re-point `#mainFrame` at it. -/
def navRekeyMain (s1 : FMState) (r : Ref) (p : FramePayload) : FMState :=
  let sA := { s1 with frames := fun k =>
    if k = (frameIdAt s1 r) then none else s1.frames k }
  let sB := setFrame sA r (fun f => { f with id := p.id })
  { sB with
    frames := fun k => if k = p.id then some r else sB.frames k,
    mainFrame := some r }

/-- Tail of `#onFrameNavigated`: `frame._navigated(framePayload)` followed
by the `FrameNavigated` emit. -/
def navNavigated (s : FMState) (r : Ref) (p : FramePayload) : FMState :=
  let s3 := setFrame s r (fun f =>
    { f with name := p.name, url := p.url ++ (p.urlFragment.getD "") })
  { s3 with events := s3.events ++ [FMEvent.frameNavigated r] }

/-- `FrameManager.#onFrameNavigated(framePayload)`.  A `none` result
models an `assert` failure. -/
def onFrameNavigated (fuel : Nat) (s : FMState) (p : FramePayload) :
    Option FMState :=
  let isMainFrame := p.parentId.isNone
  let fr0 : Option Ref := if isMainFrame then s.mainFrame else s.frames p.id
  if isMainFrame = false ∧ fr0 = none then none
  else
    let s1 := match fr0 with
      | some r =>
        match s.frameStore r with
        | some fd => removeChildren fuel s fd.childFrames
        | none => s
      | none => s
    let step2 : FMState × Option Ref :=
      if isMainFrame then
        match fr0 with
        | some r => (navRekeyMain s1 r p, some r)
        | none =>
          let res := newFrame s1 none p.id s.client
          ({ res.1 with
              frames := fun k => if k = p.id then some res.2 else res.1.frames k,
              mainFrame := some res.2 }, some res.2)
      else (s1, fr0)
    match step2.2 with
    | none => none
    | some r => some (navNavigated step2.1 r p)

/-- Tail of `#onExecutionContextCreated`: allocate the `ExecutionContext`
object, bind it to `world` when one was selected, and index it under the
composite key. -/
def finishCtxCreate (s : FMState) (p : CtxPayload) (session : SessionId)
    (ctxClient : SessionId) (world : Option Ref) : FMState :=
  let c := s.nextCtxRef
  let s1 := { s with
    ctxStore := fun x =>
      if x = c then some ⟨ctxClient, p.id, world⟩ else s.ctxStore x,
    nextCtxRef := s.nextCtxRef + 1 }
  let s2 := match world with
    | some w => setWorldContext s1 w (some c)
    | none => s1
  { s2 with contexts := ctxSet s2.contexts (contextKey session p.id) c }

/-- The frame lookup at the top of `#onExecutionContextCreated`:
`auxData?.frameId` resolved through the `#frames` index. -/
def ctxFrameOf (s : FMState) (p : CtxPayload) : Option Ref :=
  match p.auxData.bind AuxData.frameId with
  | some fid => s.frames fid
  | none => none

/-- Holds when `#onExecutionContextCreated` reaches the context-creation
tail rather than returning early: the named frame, if tracked, is owned
by the delivering session. -/
def contextWillBeCreated (s : FMState) (p : CtxPayload)
    (session : SessionId) : Prop :=
  match ctxFrameOf s p with
  | some r => ∃ fd, s.frameStore r = some fd ∧ fd.client = session
  | none => True

/-- `FrameManager.#onExecutionContextCreated(contextPayload, session)`. -/
def onExecutionContextCreated (s : FMState) (p : CtxPayload)
    (session : SessionId) : FMState :=
  match ctxFrameOf s p with
  | some r =>
    match s.frameStore r with
    | none => s
    | some fd =>
      if ¬ fd.client = session then s
      else
        let world : Option Ref :=
          if (match p.auxData with | some a => a.isDefault | none => false)
          then some fd.mainWorld
          else if p.name = UTILITY_WORLD_NAME ∧
              worldHasContext s fd.secondaryWorld = false
          then some fd.secondaryWorld
          else none
        finishCtxCreate s p session fd.client world
  | none => finishCtxCreate s p session s.client none

/-- `FrameManager.#onExecutionContextDestroyed(executionContextId, session)`. -/
def onExecutionContextDestroyed (s : FMState) (executionContextId : Nat)
    (session : SessionId) : FMState :=
  match ctxGet s.contexts (contextKey session executionContextId) with
  | none => s
  | some c =>
    let s1 := { s with
      contexts := ctxDelete s.contexts (contextKey session executionContextId) }
    match s.ctxStore c with
    | some cd =>
      match cd.world with
      | some w => setWorldContext s1 w none
      | none => s1
    | none => s1

/-- One iteration of the `#onExecutionContextsCleared` loop on the entry
`(key, c)`: contexts of other sessions are skipped (`continue`); for a
context of `session` the bound World (if any) is cleared and the entry is
deleted. -/
def clearStep (s : FMState) (key : String) (c : Ref)
    (session : SessionId) : FMState :=
  match s.ctxStore c with
  | none => s
  | some cd =>
    if ¬ cd.client = session then s
    else
      let sA := match cd.world with
        | some w => setWorldContext s w none
        | none => s
      { sA with contexts := ctxDelete sA.contexts key }

/-- The entry loop of `#onExecutionContextsCleared`: iterates the map
entries (a snapshot, faithful to JS `Map` iteration under deletion of the
current entry). -/
def clearLoop (s : FMState) (entries : List (String × Ref))
    (session : SessionId) : FMState :=
  match entries with
  | [] => s
  | (key, c) :: rest => clearLoop (clearStep s key c session) rest session

/-- `FrameManager.#onExecutionContextsCleared(session)`. -/
def onExecutionContextsCleared (s : FMState) (session : SessionId) : FMState :=
  clearLoop s s.contexts session

/-- `FrameManager.executionContextById(contextId, session)`; the `fatal`
result models the `assert` on a missing context. -/
def executionContextById (s : FMState) (contextId : Nat)
    (session : SessionId) : FatalOr Ref :=
  match ctxGet s.contexts (contextKey session contextId) with
  | some c => FatalOr.ok c
  | none => FatalOr.fatal
      ("INTERNAL ERROR: missing context with id = " ++ toString contextId)

/-- `FrameManager.mainFrame()`; the `fatal` result models the `assert`
firing when no main frame has been recorded yet. -/
def mainFrameChecked (s : FMState) : FatalOr Ref :=
  match s.mainFrame with
  | some r => FatalOr.ok r
  | none => FatalOr.fatal "Requesting main frame too early!"

/-- Error value thrown by a protocol command (`isErrorLike` errors carry a
message string). -/
structure PpError where
  message : String
deriving DecidableEq

/-- JS `String.prototype.includes`. -/
def strIncludes (hay needle : String) : Bool :=
  decide (needle.data <:+: hay.data)

/-- The target-closed test of `FrameManager.initialize`. -/
def isTargetOrSessionClosedError (e : PpError) : Bool :=
  strIncludes e.message "Target closed" || strIncludes e.message "Session closed"

/-- First rejection among the command outcomes awaited by
`FrameManager.initialize` (each `some e` is a command failure). -/
def firstFailure (outcomes : List (Option PpError)) : Option PpError :=
  match outcomes with
  | [] => none
  | some e :: _ => some e
  | none :: rest => firstFailure rest

/-- `FrameManager.initialize(client)`, abstracted over the outcomes of the
protocol commands it awaits: the first failure is thrown into the
`try`/`catch`; a target- or session-closed failure is swallowed (normal
return, modelled by `none`); any other failure propagates (`some e`). -/
def initFrameManager (outcomes : List (Option PpError)) : Option PpError :=
  match firstFailure outcomes with
  | none => none
  | some e => if isTargetOrSessionClosedError e then none else some e

/-- Watcher-side navigation outcome.  Modelled from the spec: the
`LifecycleWatcher` class is not part of the given sources; per the spec a
watcher reaches exactly one of four terminal states. -/
inductive WatcherOutcome where
  | resolvedSameDocument
  | resolvedNewDocument
  | timedOut (e : PpError)
  | terminated (e : PpError)
deriving DecidableEq

/-- Abstract state of one `LifecycleWatcher`.  Modelled from the spec:
`navResponse` is the value of `navigationResponse()` (the main-resource
response handle, or `none` when the navigation target was `about:blank`
or only a same-document hash change, recorded by
`nullBecauseAboutBlankOrHash`); `disposed` records that `dispose()` ran. -/
structure LifecycleWatcherModel where
  outcome : WatcherOutcome
  navResponse : Option Nat
  nullBecauseAboutBlankOrHash : Bool
  disposed : Bool
deriving DecidableEq

/-- The error with which `timeoutOrTerminationPromise()` settles, when it
settles at all. -/
def watcherErrorSignal (w : LifecycleWatcherModel) : Option PpError :=
  match w.outcome with
  | WatcherOutcome.timedOut e => some e
  | WatcherOutcome.terminated e => some e
  | _ => none

/-- `FrameManager.navigateFrame(frame, url, options)`, abstracted over the
outcome of the `Page.navigate` command (`navResult`: `some e` when the
command rejected or reported an `errorText`) and over the watcher model.
`navWinsRace` resolves the first `Promise.race` when both sides settle.
Returns the watcher (with `dispose()` applied) and the call result. -/
def navigateFrame (navWinsRace : Bool) (navResult : Option PpError)
    (w : LifecycleWatcherModel) :
    LifecycleWatcherModel × Except PpError (Option Nat) :=
  let error1 : Option PpError :=
    if navWinsRace then navResult
    else match watcherErrorSignal w with
      | some e => some e
      | none => navResult
  let error2 : Option PpError :=
    match error1 with
    | some e => some e
    | none => watcherErrorSignal w
  let w1 := { w with disposed := true }
  match error2 with
  | some e => (w1, Except.error e)
  | none => (w1, Except.ok w.navResponse)

/-- Specification-side trace of the child loop of `removedRefs`: the refs
removed while walking the child list `cs`, threading the state exactly as
the removal walk does. -/
def removedChildren (fuel : Nat) (s : FMState) (cs : List Ref) : List Ref :=
  (cs.foldl
    (fun (acc : FMState × List Ref) c =>
      (removeFramesRecursively fuel acc.1 c,
       acc.2 ++ removedRefs fuel acc.1 c))
    (s, [])).2

/-- Facts preserved by every step of the removal walk: the main-frame
pointer is untouched, heap entries survive with their id unchanged and
their detached flag monotone, the frame index never gains entries, and
the context state is untouched. -/
def StatePres (s t : FMState) : Prop :=
  t.mainFrame = s.mainFrame ∧
  (∀ r fd, s.frameStore r = some fd →
    ∃ fd2, t.frameStore r = some fd2 ∧ fd2.id = fd.id ∧
      (fd.detached = true → fd2.detached = true)) ∧
  (∀ k v, t.frames k = some v → s.frames k = some v) ∧
  t.contexts = s.contexts ∧ t.ctxStore = s.ctxStore

/-- A demonstration main-frame object: id "A", owned by session "s1". -/
def demoFrameA : FrameData :=
  { id := "A", parent := none, url := "", name := none, loaderId := "",
    lifecycleEvents := [], hasStartedLoading := false, detached := false,
    client := "s1", mainWorld := 0, secondaryWorld := 1, childFrames := [] }

/-- A demonstration manager state: session "s1", one main frame "A". -/
def demoState : FMState :=
  { client := "s1",
    frames := fun k => if k = "A" then some 0 else none,
    frameStore := fun r => if r = 0 then some demoFrameA else none,
    worldStore := fun w =>
      if w = 0 then some ⟨0, none, false⟩
      else if w = 1 then some ⟨0, none, false⟩
      else none,
    ctxStore := fun _ => none,
    contexts := [],
    mainFrame := some 0,
    nextFrameRef := 1, nextWorldRef := 2, nextCtxRef := 0, events := [] }

/-- A demonstration out-of-process frame: id "F", bound to session "s2"
while the manager's own session is "s1". -/
def demoOopFrame : FrameData :=
  { id := "F", parent := none, url := "", name := none, loaderId := "",
    lifecycleEvents := [], hasStartedLoading := false, detached := false,
    client := "s2", mainWorld := 0, secondaryWorld := 1, childFrames := [] }

/-- A demonstration manager state holding the out-of-process frame "F". -/
def demoOopState : FMState :=
  { client := "s1",
    frames := fun k => if k = "F" then some 0 else none,
    frameStore := fun r => if r = 0 then some demoOopFrame else none,
    worldStore := fun w =>
      if w = 0 then some ⟨0, none, false⟩
      else if w = 1 then some ⟨0, none, false⟩
      else none,
    ctxStore := fun _ => none,
    contexts := [],
    mainFrame := some 0,
    nextFrameRef := 1, nextWorldRef := 2, nextCtxRef := 0, events := [] }

/-- Frame "A" of the demonstration tree: the main frame, ref 0. -/
def demoTreeA : FrameData :=
  { id := "A", parent := none, url := "", name := none, loaderId := "",
    lifecycleEvents := [], hasStartedLoading := false, detached := false,
    client := "s1", mainWorld := 0, secondaryWorld := 1, childFrames := [1] }

/-- Frame "B" of the demonstration tree: child of "A", ref 1. -/
def demoTreeB : FrameData :=
  { id := "B", parent := some 0, url := "", name := none, loaderId := "",
    lifecycleEvents := [], hasStartedLoading := false, detached := false,
    client := "s1", mainWorld := 2, secondaryWorld := 3, childFrames := [2] }

/-- Frame "C" of the demonstration tree: child of "B", ref 2. -/
def demoTreeC : FrameData :=
  { id := "C", parent := some 1, url := "", name := none, loaderId := "",
    lifecycleEvents := [], hasStartedLoading := false, detached := false,
    client := "s1", mainWorld := 4, secondaryWorld := 5, childFrames := [] }

/-- A demonstration three-frame tree: main frame "A" (ref 0) with child
"B" (ref 1), which has child "C" (ref 2). -/
def demoTreeState : FMState :=
  { client := "s1",
    frames := fun k =>
      if k = "A" then some 0
      else if k = "B" then some 1
      else if k = "C" then some 2
      else none,
    frameStore := fun r =>
      if r = 0 then some demoTreeA
      else if r = 1 then some demoTreeB
      else if r = 2 then some demoTreeC
      else none,
    worldStore := fun w => if w < 6 then some ⟨w / 2, none, false⟩ else none,
    ctxStore := fun _ => none,
    contexts := [],
    mainFrame := some 0,
    nextFrameRef := 3, nextWorldRef := 6, nextCtxRef := 0, events := [] }

/-- The per-entry test of `#onExecutionContextsCleared`: the entry's
context belongs to the clearing session. -/
def clearedBySession (store : Ref → Option CtxData) (session : SessionId)
    (e : String × Ref) : Bool :=
  match store e.2 with
  | some cd => cd.client = session
  | none => false

/-- A demonstration state with one context per session "sA" (ref 0, bound
to world 10) and "sB" (ref 1, bound to world 11). -/
def demoCtxState : FMState :=
  { client := "s1",
    frames := fun _ => none,
    frameStore := fun _ => none,
    worldStore := fun w =>
      if w = 10 then some ⟨0, some 0, false⟩
      else if w = 11 then some ⟨0, some 1, false⟩
      else none,
    ctxStore := fun c =>
      if c = 0 then some ⟨"sA", 1, some 10⟩
      else if c = 1 then some ⟨"sB", 1, some 11⟩
      else none,
    contexts := [(contextKey "sA" 1, 0), (contextKey "sB" 1, 1)],
    mainFrame := none,
    nextFrameRef := 0, nextWorldRef := 0, nextCtxRef := 2, events := [] }

/-- A demonstration watcher that resolved a new-document navigation with
main-resource response handle 42. -/
def demoWatcher : LifecycleWatcherModel :=
  ⟨WatcherOutcome.resolvedNewDocument, some 42, false, false⟩

/-- A demonstration watcher that timed out before its milestones. -/
def demoTimeoutWatcher : LifecycleWatcherModel :=
  ⟨WatcherOutcome.timedOut ⟨"Navigation timeout of 30000 ms exceeded"⟩,
    none, true, false⟩

theorem statePres_refl (s : FMState) : StatePres s s :=
  ⟨rfl, fun _ fd h => ⟨fd, h, rfl, fun hd => hd⟩, fun _ _ h => h, rfl, rfl⟩

theorem statePres_trans {s t u : FMState} (h1 : StatePres s t)
    (h2 : StatePres t u) : StatePres s u := by
  obtain ⟨m1, st1, fr1, c1, cs1⟩ := h1
  obtain ⟨m2, st2, fr2, c2, cs2⟩ := h2
  refine ⟨m2.trans m1, ?_, fun k v h => fr1 k v (fr2 k v h), c2.trans c1,
    cs2.trans cs1⟩
  intro r fd h
  obtain ⟨fd2, h2a, h2b, h2c⟩ := st1 r fd h
  obtain ⟨fd3, h3a, h3b, h3c⟩ := st2 r fd2 h2a
  exact ⟨fd3, h3a, h3b.trans h2b, fun hd => h3c (h2c hd)⟩


theorem setFrame_store (s : FMState) (r : Ref) (f : FrameData → FrameData)
    (x : Ref) : (setFrame s r f).frameStore x =
      if x = r then (s.frameStore r).map f else s.frameStore x := rfl

theorem setFrame_pres (s : FMState) (r : Ref) (f : FrameData → FrameData)
    (hid : ∀ fd, (f fd).id = fd.id)
    (hdet : ∀ fd, fd.detached = true → (f fd).detached = true) :
    StatePres s (setFrame s r f) := by
  refine ⟨rfl, ?_, fun _ _ h => h, rfl, rfl⟩
  intro x fd h
  rw [setFrame_store]
  by_cases hx : x = r
  · subst hx
    rw [if_pos rfl, h]
    exact ⟨f fd, rfl, hid fd, hdet fd⟩
  · rw [if_neg hx]
    exact ⟨fd, h, rfl, fun hd => hd⟩

theorem setWorldDetached_pres (s : FMState) (w : Ref) :
    StatePres s (setWorldDetached s w) := by
  exact ⟨rfl, fun _ fd h => ⟨fd, h, rfl, fun hd => hd⟩, fun _ _ h => h, rfl, rfl⟩

theorem detachFrame_eq_none {s : FMState} {r : Ref}
    (h : s.frameStore r = none) : detachFrame s r = s := by
  simp [detachFrame, h]

theorem detachFrame_eq_some {s : FMState} {r : Ref} {fd : FrameData}
    (h : s.frameStore r = some fd) :
    detachFrame s r =
      setFrame
        (match fd.parent with
          | some p =>
            setFrame
              (setWorldDetached
                (setWorldDetached
                  (setFrame s r (fun f => { f with detached := true }))
                  fd.mainWorld)
                fd.secondaryWorld)
              p
              (fun pf => { pf with
                childFrames := pf.childFrames.filter (fun c => ¬ c = r) })
          | none =>
            setWorldDetached
              (setWorldDetached
                (setFrame s r (fun f => { f with detached := true }))
                fd.mainWorld)
              fd.secondaryWorld)
        r (fun f => { f with parent := none }) := by
  simp [detachFrame, h]

theorem detachFrame_pres (s : FMState) (r : Ref) :
    StatePres s (detachFrame s r) := by
  cases h : s.frameStore r with
  | none => rw [detachFrame_eq_none h]; exact statePres_refl s
  | some fd =>
    rw [detachFrame_eq_some h]
    have h1 := setFrame_pres s r (fun f => { f with detached := true })
      (fun _ => rfl) (fun _ _ => rfl)
    have h2 := setWorldDetached_pres
      (setFrame s r (fun f => { f with detached := true })) fd.mainWorld
    have h3 := setWorldDetached_pres
      (setWorldDetached (setFrame s r (fun f => { f with detached := true }))
        fd.mainWorld) fd.secondaryWorld
    have h123 := statePres_trans (statePres_trans h1 h2) h3
    cases hp : fd.parent with
    | none =>
      exact statePres_trans h123
        (setFrame_pres _ r (fun f => { f with parent := none })
          (fun _ => rfl) (fun _ hd => hd))
    | some p =>
      refine statePres_trans (statePres_trans h123
        (setFrame_pres _ p (fun pf => { pf with
          childFrames := pf.childFrames.filter (fun c => ¬ c = r) })
          (fun _ => rfl) (fun _ hd => hd))) ?_
      exact setFrame_pres _ r (fun f => { f with parent := none })
        (fun _ => rfl) (fun _ hd => hd)

theorem detachFrame_frames (s : FMState) (r : Ref) :
    (detachFrame s r).frames = s.frames := by
  cases h : s.frameStore r with
  | none => rw [detachFrame_eq_none h]
  | some fd =>
    rw [detachFrame_eq_some h]
    cases fd.parent <;> rfl

theorem detachFrame_events (s : FMState) (r : Ref) :
    (detachFrame s r).events = s.events := by
  cases h : s.frameStore r with
  | none => rw [detachFrame_eq_none h]
  | some fd =>
    rw [detachFrame_eq_some h]
    cases fd.parent <;> rfl

theorem removeFinish_pres (s : FMState) (r : Ref) :
    StatePres s (removeFinish s r) := by
  refine statePres_trans (detachFrame_pres s r) ?_
  refine ⟨rfl, fun _ fd2 h2 => ⟨fd2, h2, rfl, fun hd => hd⟩, ?_, rfl, rfl⟩
  intro k v hv
  simp only [removeFinish] at hv
  by_cases hk : k = frameIdAt (detachFrame s r) r
  · rw [if_pos hk] at hv; exact absurd hv (by simp)
  · rwa [if_neg hk] at hv

theorem removeFramesRecursively_eq_zero (s : FMState) (r : Ref) :
    removeFramesRecursively 0 s r = s := rfl

theorem removeFramesRecursively_eq_none {s : FMState} {r : Ref} {fuel : Nat}
    (h : s.frameStore r = none) :
    removeFramesRecursively (fuel + 1) s r = s := by
  rw [removeFramesRecursively, h]

theorem removeFramesRecursively_eq_some {s : FMState} {r : Ref} {fuel : Nat}
    {fd : FrameData} (h : s.frameStore r = some fd) :
    removeFramesRecursively (fuel + 1) s r =
      removeFinish (removeChildren fuel s fd.childFrames) r := by
  rw [removeFramesRecursively, h]; rfl

theorem removeChildren_nil (fuel : Nat) (s : FMState) :
    removeChildren fuel s [] = s := rfl

theorem removeChildren_cons (fuel : Nat) (s : FMState) (c : Ref)
    (cs : List Ref) : removeChildren fuel s (c :: cs) =
      removeChildren fuel (removeFramesRecursively fuel s c) cs := rfl

theorem removeFramesRecursively_pres (fuel : Nat) :
    ∀ s r, StatePres s (removeFramesRecursively fuel s r) := by
  induction fuel with
  | zero => intro s r; exact statePres_refl s
  | succ fuel ih =>
    intro s r
    have fold : ∀ (cs : List Ref) (s : FMState),
        StatePres s (removeChildren fuel s cs) := by
      intro cs
      induction cs with
      | nil => intro s; exact statePres_refl s
      | cons c cs ihc =>
        intro s
        rw [removeChildren_cons]
        exact statePres_trans (ih s c) (ihc _)
    cases h : s.frameStore r with
    | none => rw [removeFramesRecursively_eq_none h]; exact statePres_refl s
    | some fd =>
      rw [removeFramesRecursively_eq_some h]
      exact statePres_trans (fold fd.childFrames s) (removeFinish_pres _ r)

theorem removeChildren_pres (fuel : Nat) (cs : List Ref) (s : FMState) :
    StatePres s (removeChildren fuel s cs) := by
  induction cs generalizing s with
  | nil => exact statePres_refl s
  | cons c cs ihc =>
    rw [removeChildren_cons]
    exact statePres_trans (removeFramesRecursively_pres fuel s c) (ihc _)

theorem pairFold_acc (fuel : Nat) (cs : List Ref) :
    ∀ (s : FMState) (l : List Ref),
    (cs.foldl
      (fun (acc : FMState × List Ref) c =>
        (removeFramesRecursively fuel acc.1 c,
         acc.2 ++ removedRefs fuel acc.1 c))
      (s, l)).2 = l ++ removedChildren fuel s cs := by
  induction cs with
  | nil => intro s l; simp [removedChildren]
  | cons c cs ihc =>
    intro s l
    simp only [removedChildren, List.foldl]
    rw [ihc, ihc]
    simp

theorem removedChildren_nil (fuel : Nat) (s : FMState) :
    removedChildren fuel s [] = [] := rfl

theorem removedChildren_cons (fuel : Nat) (s : FMState) (c : Ref)
    (cs : List Ref) : removedChildren fuel s (c :: cs) =
      removedRefs fuel s c ++
        removedChildren fuel (removeFramesRecursively fuel s c) cs := by
  simp only [removedChildren, List.foldl]
  rw [pairFold_acc]
  simp [removedChildren]

theorem removedRefs_eq_zero (s : FMState) (r : Ref) :
    removedRefs 0 s r = [] := rfl

theorem removedRefs_eq_none {s : FMState} {r : Ref} {fuel : Nat}
    (h : s.frameStore r = none) : removedRefs (fuel + 1) s r = [] := by
  rw [removedRefs, h]

theorem removedRefs_eq_some {s : FMState} {r : Ref} {fuel : Nat}
    {fd : FrameData} (h : s.frameStore r = some fd) :
    removedRefs (fuel + 1) s r =
      removedChildren fuel s fd.childFrames ++ [r] := by
  rw [removedRefs, h]; rfl

theorem removeFinish_events (s : FMState) (r : Ref) :
    (removeFinish s r).events = s.events ++ [FMEvent.frameDetached r] := by
  simp only [removeFinish]
  rw [detachFrame_events]

theorem removeFramesRecursively_events (fuel : Nat) :
    ∀ s r, (removeFramesRecursively fuel s r).events =
      s.events ++ (removedRefs fuel s r).map FMEvent.frameDetached := by
  induction fuel with
  | zero => intro s r; simp [removeFramesRecursively_eq_zero, removedRefs_eq_zero]
  | succ fuel ih =>
    have fold : ∀ (cs : List Ref) (s : FMState),
        (removeChildren fuel s cs).events =
          s.events ++ (removedChildren fuel s cs).map FMEvent.frameDetached := by
      intro cs
      induction cs with
      | nil => intro s; simp [removeChildren_nil, removedChildren_nil]
      | cons c cs ihc =>
        intro s
        rw [removeChildren_cons, removedChildren_cons, ihc, ih]
        simp
    intro s r
    cases h : s.frameStore r with
    | none =>
      rw [removeFramesRecursively_eq_none h, removedRefs_eq_none h]
      simp
    | some fd =>
      rw [removeFramesRecursively_eq_some h, removedRefs_eq_some h,
        removeFinish_events, fold]
      simp

theorem removedFact_mono {u t : FMState} (h : StatePres u t) {r2 : Ref}
    {fd2 : FrameData} (h1 : u.frameStore r2 = some fd2)
    (h2 : fd2.detached = true) (h3 : u.frames fd2.id = none) :
    ∃ fd3, t.frameStore r2 = some fd3 ∧ fd3.detached = true ∧
      t.frames fd3.id = none := by
  obtain ⟨_, st, fr, _, _⟩ := h
  obtain ⟨fd3, ha, hb, hc⟩ := st r2 fd2 h1
  refine ⟨fd3, ha, hc h2, ?_⟩
  rw [hb]
  cases hv : t.frames fd2.id with
  | none => rfl
  | some v =>
    have := fr _ v hv
    rw [h3] at this
    exact absurd this (by simp)

theorem setWorldDetached_frameStore (s : FMState) (w : Ref) :
    (setWorldDetached s w).frameStore = s.frameStore := rfl

theorem detachFrame_self {s : FMState} {r : Ref} {fd : FrameData}
    (h : s.frameStore r = some fd) :
    ∃ fd2, (detachFrame s r).frameStore r = some fd2 ∧
      fd2.detached = true := by
  rw [detachFrame_eq_some h]
  cases hp : fd.parent with
  | none =>
    refine ⟨{ fd with detached := true, parent := none }, ?_, rfl⟩
    simp [setFrame_store, setWorldDetached_frameStore, h]
  | some p =>
    by_cases hrp : r = p
    · subst hrp
      refine ⟨{ fd with detached := true, childFrames := fd.childFrames.filter (fun c => ¬ c = r), parent := none }, ?_, rfl⟩
      simp [setFrame_store, setWorldDetached_frameStore, h]
    · refine ⟨{ fd with detached := true, parent := none }, ?_, rfl⟩
      simp [setFrame_store, setWorldDetached_frameStore, hrp, h]

theorem removeFinish_store (s : FMState) (r : Ref) :
    (removeFinish s r).frameStore = (detachFrame s r).frameStore := rfl

theorem removeFinish_self {s : FMState} {r : Ref} {fd : FrameData}
    (h : s.frameStore r = some fd) :
    ∃ fd2, (removeFinish s r).frameStore r = some fd2 ∧
      fd2.detached = true ∧ (removeFinish s r).frames fd2.id = none := by
  obtain ⟨fd2, hd, hdet⟩ := detachFrame_self h
  refine ⟨fd2, ?_, hdet, ?_⟩
  · rw [removeFinish_store]; exact hd
  · show (if fd2.id = (frameIdAt (detachFrame s r) r) then none
      else (detachFrame s r).frames fd2.id) = none
    rw [if_pos]
    unfold frameIdAt
    rw [hd]

theorem removeFramesRecursively_removed (fuel : Nat) :
    ∀ s r r2, r2 ∈ removedRefs fuel s r →
      ∃ fd2, (removeFramesRecursively fuel s r).frameStore r2 = some fd2 ∧
        fd2.detached = true ∧
        (removeFramesRecursively fuel s r).frames fd2.id = none := by
  induction fuel with
  | zero =>
    intro s r r2 hmem
    rw [removedRefs_eq_zero] at hmem
    exact absurd hmem (List.not_mem_nil r2)
  | succ fuel ih =>
    have fold : ∀ (cs : List Ref) (s : FMState) (r2 : Ref),
        r2 ∈ removedChildren fuel s cs →
        ∃ fd2, (removeChildren fuel s cs).frameStore r2 = some fd2 ∧
          fd2.detached = true ∧
          (removeChildren fuel s cs).frames fd2.id = none := by
      intro cs
      induction cs with
      | nil =>
        intro s r2 hmem
        rw [removedChildren_nil] at hmem
        exact absurd hmem (List.not_mem_nil r2)
      | cons c cs ihc =>
        intro s r2 hmem
        rw [removedChildren_cons] at hmem
        rw [removeChildren_cons]
        rcases List.mem_append.mp hmem with h1 | h2
        · obtain ⟨fd2, ha, hb, hc⟩ := ih s c r2 h1
          exact removedFact_mono (removeChildren_pres fuel cs _) ha hb hc
        · exact ihc _ r2 h2
    intro s r r2 hmem
    cases h : s.frameStore r with
    | none =>
      rw [removedRefs_eq_none h] at hmem
      exact absurd hmem (List.not_mem_nil r2)
    | some fd =>
      rw [removedRefs_eq_some h] at hmem
      rw [removeFramesRecursively_eq_some h]
      rcases List.mem_append.mp hmem with h1 | h2
      · obtain ⟨fd2, ha, hb, hc⟩ := fold fd.childFrames s r2 h1
        exact removedFact_mono (removeFinish_pres _ r) ha hb hc
      · have hr : r2 = r := by simpa using h2
        subst hr
        obtain ⟨_, st, _, _, _⟩ := removeChildren_pres fuel fd.childFrames s
        obtain ⟨fdU, hU, _, _⟩ := st r2 fd h
        exact removeFinish_self hU

theorem ctxGet_set_same (m : List (String × Ref)) (k : String) (v : Ref) :
    ctxGet (ctxSet m k v) k = some v := by
  induction m with
  | nil => simp [ctxSet, ctxGet]
  | cons e rest ih =>
    by_cases h : e.1 = k
    · simp [ctxSet, ctxGet, h]
    · simp [ctxSet, ctxGet, h, ih]

theorem ctxGet_set_other (m : List (String × Ref)) (k k2 : String) (v : Ref)
    (h : ¬ k = k2) : ctxGet (ctxSet m k v) k2 = ctxGet m k2 := by
  induction m with
  | nil => simp [ctxSet, ctxGet, h]
  | cons e rest ih =>
    by_cases h1 : e.1 = k
    · simp [ctxSet, ctxGet, h1, h]
    · simp only [ctxSet, ctxGet, if_neg h1]
      by_cases h2 : e.1 = k2
      · simp [h2]
      · simp [h2, ih]

theorem ctxGet_delete_same (m : List (String × Ref)) (k : String) :
    ctxGet (ctxDelete m k) k = none := by
  induction m with
  | nil => simp [ctxDelete, ctxGet]
  | cons e rest ih =>
    by_cases h : e.1 = k
    · simpa [ctxDelete, ctxGet, h] using ih
    · simpa [ctxDelete, ctxGet, h] using ih

theorem ctxGet_delete_other (m : List (String × Ref)) (k k2 : String)
    (h : ¬ k = k2) : ctxGet (ctxDelete m k) k2 = ctxGet m k2 := by
  induction m with
  | nil => simp [ctxDelete, ctxGet]
  | cons e rest ih =>
    obtain ⟨k1, v⟩ := e
    by_cases h1 : k1 = k
    · have hcd : ctxDelete ((k1, v) :: rest) k = ctxDelete rest k := by
        simp [ctxDelete, List.filter_cons, h1]
      have h2 : ¬ k1 = k2 := by rw [h1]; exact h
      rw [hcd, ih]
      simp [ctxGet, h2]
    · have hcd : ctxDelete ((k1, v) :: rest) k = (k1, v) :: ctxDelete rest k := by
        simp [ctxDelete, List.filter_cons, h1]
      rw [hcd]
      by_cases h2 : k1 = k2
      · simp [ctxGet, h2]
      · simp [ctxGet, h2, ih]

theorem ctxGet_mem {m : List (String × Ref)} {k : String} {c : Ref}
    (h : ctxGet m k = some c) : (k, c) ∈ m := by
  induction m with
  | nil => simp [ctxGet] at h
  | cons e rest ih =>
    obtain ⟨k1, v⟩ := e
    by_cases h1 : k1 = k
    · simp only [ctxGet, if_pos h1] at h
      injection h with hv
      subst h1
      subst hv
      exact List.mem_cons_self _ _
    · simp only [ctxGet, if_neg h1] at h
      exact List.mem_cons_of_mem _ (ih h)

theorem string_data_append (a b : String) : (a ++ b).data = a.data ++ b.data := rfl

theorem contextKey_inj {a b : SessionId} {n : Nat}
    (h : contextKey a n = contextKey b n) : a = b := by
  unfold contextKey at h
  have hd := congrArg String.data h
  rw [string_data_append, string_data_append, string_data_append,
    string_data_append] at hd
  have h1 := List.append_cancel_right hd
  have h2 := List.append_cancel_right h1
  exact congrArg String.mk h2

theorem onExecutionContextDestroyed_eq_none {s : FMState} {n : Nat}
    {sid : SessionId} (h : ctxGet s.contexts (contextKey sid n) = none) :
    onExecutionContextDestroyed s n sid = s := by
  simp [onExecutionContextDestroyed, h]

theorem onExecutionContextDestroyed_contexts_deleted {s : FMState} {n : Nat}
    {sid : SessionId} {c : Ref}
    (h : ctxGet s.contexts (contextKey sid n) = some c) :
    (onExecutionContextDestroyed s n sid).contexts =
      ctxDelete s.contexts (contextKey sid n) := by
  simp only [onExecutionContextDestroyed, h]
  cases h2 : s.ctxStore c with
  | none => rfl
  | some cd =>
    obtain ⟨cl, cid, w⟩ := cd
    cases w with
    | none => rfl
    | some w0 => rfl

theorem onExecutionContextDestroyed_lookup_gone (s : FMState) (n : Nat)
    (sid : SessionId) :
    ctxGet (onExecutionContextDestroyed s n sid).contexts
      (contextKey sid n) = none := by
  cases h : ctxGet s.contexts (contextKey sid n) with
  | none => rw [onExecutionContextDestroyed_eq_none h]; exact h
  | some c =>
    rw [onExecutionContextDestroyed_contexts_deleted h]
    exact ctxGet_delete_same _ _

/-- Claim C5: `executionContextById` on an absent `(session, id)` pair and
`mainFrame()` before any main frame exists both fail with the fatal
assertion (modelled by `FatalOr.fatal`) instead of returning a default,
and after `executionContextDestroyed` for a context the lookup for that
pair fails the same way. -/
theorem fatal_lookup_spec (s : FMState) (n : Nat) (sid : SessionId) :
    (ctxGet s.contexts (contextKey sid n) = none →
      executionContextById s n sid = FatalOr.fatal
        ("INTERNAL ERROR: missing context with id = " ++ toString n)) ∧
    (s.mainFrame = none → mainFrameChecked s =
      FatalOr.fatal "Requesting main frame too early!") ∧
    executionContextById (onExecutionContextDestroyed s n sid) n sid =
      FatalOr.fatal ("INTERNAL ERROR: missing context with id = " ++ toString n) := by
  refine ⟨?_, ?_, ?_⟩
  · intro h
    unfold executionContextById
    rw [h]
  · intro h
    unfold mainFrameChecked
    rw [h]
  · unfold executionContextById
    rw [onExecutionContextDestroyed_lookup_gone]

/-- Witness for C5 at a concrete state: the empty context index of
`demoState` makes the lookup fail, `mainFrame` of a state without a main
frame fails, and a destroy-then-lookup fails. -/
theorem fatal_lookup_spec_witness :
    ctxGet demoState.contexts (contextKey "s1" 5) = none ∧
    executionContextById demoState 5 "s1" = FatalOr.fatal
      ("INTERNAL ERROR: missing context with id = " ++ toString 5) ∧
    ({ demoState with mainFrame := none } : FMState).mainFrame = none ∧
    mainFrameChecked { demoState with mainFrame := none } =
      FatalOr.fatal "Requesting main frame too early!" ∧
    executionContextById (onExecutionContextDestroyed demoState 5 "s1") 5 "s1" =
      FatalOr.fatal ("INTERNAL ERROR: missing context with id = " ++ toString 5) :=
  ⟨by decide, (fatal_lookup_spec demoState 5 "s1").1 (by decide), by decide,
    (fatal_lookup_spec { demoState with mainFrame := none } 5 "s1").2.1 (by decide),
    (fatal_lookup_spec demoState 5 "s1").2.2⟩

/-- Claim C6: `initialize` returns normally (the failure is swallowed)
when the first failing protocol command reports a target- or
session-closed message, and propagates every other failure unchanged. -/
theorem initSwallowsClosedErrors (outcomes : List (Option PpError))
    (e : PpError) :
    (firstFailure outcomes = none → initFrameManager outcomes = none) ∧
    (firstFailure outcomes = some e →
      (isTargetOrSessionClosedError e = true → initFrameManager outcomes = none) ∧
      (isTargetOrSessionClosedError e = false →
        initFrameManager outcomes = some e)) := by
  constructor
  · intro h
    simp [initFrameManager, h]
  · intro h
    constructor <;> intro h2 <;> simp [initFrameManager, h, h2]

/-- Witness for C6: a target-closed failure is swallowed; an unrelated
failure propagates unchanged. -/
theorem initSwallowsClosedErrors_witness :
    firstFailure [none, some ⟨"Protocol error: Target closed."⟩] =
      some ⟨"Protocol error: Target closed."⟩ ∧
    isTargetOrSessionClosedError ⟨"Protocol error: Target closed."⟩ = true ∧
    initFrameManager [none, some ⟨"Protocol error: Target closed."⟩] = none ∧
    firstFailure [some ⟨"net::ERR_NAME_NOT_RESOLVED"⟩] =
      some ⟨"net::ERR_NAME_NOT_RESOLVED"⟩ ∧
    isTargetOrSessionClosedError ⟨"net::ERR_NAME_NOT_RESOLVED"⟩ = false ∧
    initFrameManager [some ⟨"net::ERR_NAME_NOT_RESOLVED"⟩] =
      some ⟨"net::ERR_NAME_NOT_RESOLVED"⟩ :=
  ⟨by decide, by decide,
    ((initSwallowsClosedErrors [none, some ⟨"Protocol error: Target closed."⟩]
      ⟨"Protocol error: Target closed."⟩).2 (by decide)).1 (by decide),
    by decide, by decide,
    ((initSwallowsClosedErrors [some ⟨"net::ERR_NAME_NOT_RESOLVED"⟩]
      ⟨"net::ERR_NAME_NOT_RESOLVED"⟩).2 (by decide)).2 (by decide)⟩

/-- Claim C10: an `executionContextCreated` event whose `auxData` names a
tracked frame owned by a different session is dropped entirely: the state
is unchanged, and a subsequent `executionContextById` for that
`(session, id)` pair (absent before) fails with the fatal
missing-context assertion. -/
theorem contextCreated_foreignSession_noop (s : FMState) (p : CtxPayload)
    (session : SessionId) (a : AuxData) (fid : String) (r : Ref)
    (fd : FrameData) (ha : p.auxData = some a) (hfid : a.frameId = some fid)
    (hr : s.frames fid = some r) (hfd : s.frameStore r = some fd)
    (hc : ¬ fd.client = session) :
    onExecutionContextCreated s p session = s ∧
    (ctxGet s.contexts (contextKey session p.id) = none →
      executionContextById (onExecutionContextCreated s p session) p.id session =
        FatalOr.fatal
          ("INTERNAL ERROR: missing context with id = " ++ toString p.id)) := by
  have hf : ctxFrameOf s p = some r := by
    simp [ctxFrameOf, ha, hfid, hr]
  have heq : onExecutionContextCreated s p session = s := by
    unfold onExecutionContextCreated
    simp [hf, hfd, hc]
  refine ⟨heq, fun habs => ?_⟩
  rw [heq]
  unfold executionContextById
  rw [habs]

/-- Witness for C10: the frame "A" of `demoState` is owned by "s1"; a
context-created event for it delivered by session "s2" changes nothing
and the lookup then fails. -/
theorem contextCreated_foreignSession_noop_witness :
    demoState.frames "A" = some 0 ∧
    demoState.frameStore 0 = some demoFrameA ∧
    ¬ demoFrameA.client = "s2" ∧
    onExecutionContextCreated demoState ⟨7, "", some ⟨some "A", true⟩⟩ "s2" =
      demoState ∧
    executionContextById
      (onExecutionContextCreated demoState ⟨7, "", some ⟨some "A", true⟩⟩ "s2")
      7 "s2" =
      FatalOr.fatal ("INTERNAL ERROR: missing context with id = " ++ toString 7) :=
  ⟨by decide, by decide, by decide,
    (contextCreated_foreignSession_noop demoState ⟨7, "", some ⟨some "A", true⟩⟩
      "s2" ⟨some "A", true⟩ "A" 0 demoFrameA rfl rfl (by decide) (by decide)
      (by decide)).1,
    (contextCreated_foreignSession_noop demoState ⟨7, "", some ⟨some "A", true⟩⟩
      "s2" ⟨some "A", true⟩ "A" 0 demoFrameA rfl rfl (by decide) (by decide)
      (by decide)).2 (by decide)⟩

theorem navNavigated_mainFrame (s : FMState) (r : Ref) (p : FramePayload) :
    (navNavigated s r p).mainFrame = s.mainFrame := rfl

theorem navNavigated_frames (s : FMState) (r : Ref) (p : FramePayload) :
    (navNavigated s r p).frames = s.frames := rfl

theorem navNavigated_store (s : FMState) (r : Ref) (p : FramePayload)
    (x : Ref) : (navNavigated s r p).frameStore x =
      if x = r then (s.frameStore r).map (fun f =>
        { f with name := p.name, url := p.url ++ (p.urlFragment.getD "") })
      else s.frameStore x := rfl

theorem navRekeyMain_mainFrame (s1 : FMState) (r : Ref) (p : FramePayload) :
    (navRekeyMain s1 r p).mainFrame = some r := rfl

theorem navRekeyMain_frames (s1 : FMState) (r : Ref) (p : FramePayload)
    (k : String) : (navRekeyMain s1 r p).frames k =
      if k = p.id then some r
      else if k = (frameIdAt s1 r) then none
      else s1.frames k := rfl

theorem navRekeyMain_store (s1 : FMState) (r : Ref) (p : FramePayload)
    (x : Ref) : (navRekeyMain s1 r p).frameStore x =
      if x = r then (s1.frameStore r).map (fun f => { f with id := p.id })
      else s1.frameStore x := rfl

theorem onFrameNavigated_main_some (fuel : Nat) {s : FMState}
    {p : FramePayload} {r : Ref} {fd : FrameData} (hp : p.parentId = none)
    (hm : s.mainFrame = some r) (hfd : s.frameStore r = some fd) :
    onFrameNavigated fuel s p =
      some (navNavigated
        (navRekeyMain (removeChildren fuel s fd.childFrames) r p) r p) := by
  simp [onFrameNavigated, hp, hm, hfd]

/-- Claim C1: a `frameNavigated` event with no `parentId`, arriving while
a main frame exists, keeps `mainFrame()` returning the same `Frame`
object (the same heap ref `r`), deletes the old id key from the frame
index, assigns the payload id to the live object's `_id` field, and
re-inserts the object under the new id, so the index entry for the main
frame matches its current live id. -/
theorem mainFrame_identity_preserved (fuel : Nat) (s : FMState)
    (p : FramePayload) (r : Ref) (fd : FrameData) (hm : s.mainFrame = some r)
    (hp : p.parentId = none) (hfd : s.frameStore r = some fd) :
    ∃ t, onFrameNavigated fuel s p = some t ∧
      mainFrameChecked s = FatalOr.ok r ∧
      mainFrameChecked t = FatalOr.ok r ∧
      t.frames p.id = some r ∧
      (∃ fd2, t.frameStore r = some fd2 ∧ fd2.id = p.id) ∧
      (¬ fd.id = p.id → t.frames fd.id = none) := by
  obtain ⟨hMainU, hStoreU, _, _, _⟩ := removeChildren_pres fuel fd.childFrames s
  obtain ⟨fdU, hU, hUid, _⟩ := hStoreU r fd hfd
  have hIdU : frameIdAt (removeChildren fuel s fd.childFrames) r = fd.id := by
    unfold frameIdAt
    rw [hU]
    exact hUid
  refine ⟨_, onFrameNavigated_main_some fuel hp hm hfd, ?_, ?_, ?_, ?_, ?_⟩
  · unfold mainFrameChecked
    rw [hm]
  · unfold mainFrameChecked
    rw [navNavigated_mainFrame, navRekeyMain_mainFrame]
  · rw [navNavigated_frames, navRekeyMain_frames]
    rw [if_pos rfl]
  · rw [navNavigated_store, if_pos rfl, navRekeyMain_store, if_pos rfl, hU]
    exact ⟨_, rfl, rfl⟩
  · intro hne
    rw [navNavigated_frames, navRekeyMain_frames, if_neg hne, hIdU,
      if_pos rfl]

/-- Witness for C1: navigating the main frame "A" of `demoState` to a
payload with the new id "B" keeps ref 0 as the main frame, re-keys the
index from "A" to "B" and updates the live id field. -/
theorem mainFrame_identity_preserved_witness :
    demoState.mainFrame = some 0 ∧
    demoState.frameStore 0 = some demoFrameA ∧
    (∃ t, onFrameNavigated 1 demoState ⟨"B", none, "https://x", none, none⟩ =
        some t ∧
      mainFrameChecked demoState = FatalOr.ok 0 ∧
      mainFrameChecked t = FatalOr.ok 0 ∧
      t.frames "B" = some 0 ∧
      (∃ fd2, t.frameStore 0 = some fd2 ∧ fd2.id = "B") ∧
      (¬ demoFrameA.id = "B" → t.frames demoFrameA.id = none)) :=
  ⟨rfl, by decide,
    mainFrame_identity_preserved 1 demoState ⟨"B", none, "https://x", none, none⟩
      0 demoFrameA rfl rfl (by decide)⟩

/-- Claim C2: for a `frameDetached` event with reason "remove" naming a
tracked frame, the handler runs the recursive removal, whose emitted
`FrameDetached` events follow exactly the post-order trace `removedRefs`
(children before their parent); every ref in that trace ends up marked
detached with its id absent from the index.  With reason "swap" the
handler emits `FrameSwapped` and changes nothing else — in particular it
removes nothing from the index. -/
theorem frameDetached_remove_swap (fuel : Nat) (s : FMState) (fid : String)
    (r : Ref) (h : s.frames fid = some r) :
    onFrameDetached fuel s fid "remove" = removeFramesRecursively fuel s r ∧
    (removeFramesRecursively fuel s r).events =
      s.events ++ (removedRefs fuel s r).map FMEvent.frameDetached ∧
    (∀ r2, r2 ∈ removedRefs fuel s r →
      ∃ fd2, (removeFramesRecursively fuel s r).frameStore r2 = some fd2 ∧
        fd2.detached = true ∧
        (removeFramesRecursively fuel s r).frames fd2.id = none) ∧
    onFrameDetached fuel s fid "swap" =
      { s with events := s.events ++ [FMEvent.frameSwapped (some r)] } := by
  refine ⟨by simp [onFrameDetached, h],
    removeFramesRecursively_events fuel s r,
    removeFramesRecursively_removed fuel s r, ?_⟩
  simp [onFrameDetached, h]

/-- Witness for C2 on the concrete tree A → B → C: removing "B" removes
exactly refs 2 then 1 (post-order), erases "B" and "C" from the index
while keeping "A", and a "swap" event only emits `FrameSwapped`. -/
theorem frameDetached_remove_swap_witness :
    demoTreeState.frames "B" = some 1 ∧
    (onFrameDetached 3 demoTreeState "B" "remove" =
        removeFramesRecursively 3 demoTreeState 1 ∧
      (removeFramesRecursively 3 demoTreeState 1).events =
        demoTreeState.events ++
          (removedRefs 3 demoTreeState 1).map FMEvent.frameDetached ∧
      (∀ r2, r2 ∈ removedRefs 3 demoTreeState 1 →
        ∃ fd2, (removeFramesRecursively 3 demoTreeState 1).frameStore r2 =
            some fd2 ∧
          fd2.detached = true ∧
          (removeFramesRecursively 3 demoTreeState 1).frames fd2.id = none) ∧
      onFrameDetached 3 demoTreeState "B" "swap" =
        { demoTreeState with events := demoTreeState.events ++
            [FMEvent.frameSwapped (some 1)] }) ∧
    removedRefs 3 demoTreeState 1 = [2, 1] ∧
    (removeFramesRecursively 3 demoTreeState 1).frames "B" = none ∧
    (removeFramesRecursively 3 demoTreeState 1).frames "C" = none ∧
    (removeFramesRecursively 3 demoTreeState 1).frames "A" = some 0 :=
  ⟨by decide, frameDetached_remove_swap 3 demoTreeState "B" 1 (by decide),
    by decide, by decide, by decide, by decide⟩

theorem updateClient_store (s : FMState) (r : Ref) (session : SessionId)
    (x : Ref) : (updateClient s r session).frameStore x =
      if x = r then (s.frameStore r).map (fun fd => { fd with client := session, mainWorld := s.nextWorldRef, secondaryWorld := s.nextWorldRef + 1 })
      else s.frameStore x := rfl

/-- Counterexample to claim C3 as stated: for the tracked out-of-process
frame "F" (bound to session "s2" while the manager's session is "s1"),
re-delivering a `frameAttached` event from the very session the frame is
already bound to — so the session does not differ — is not a no-op: the
handler still calls `_updateClient`, re-creating the frame's two Worlds
(its main-world ref changes from 0 to 2).  The code guards the rebind
only on `isOOPFrame()`, not on the session differing. -/
theorem frameAttached_same_session_not_noop :
    ¬ onFrameAttached demoOopState "s2" "F" none = some demoOopState := by
  intro h
  have h2 := congrArg (fun o => Option.map
    (fun t => Option.map FrameData.mainWorld (t.frameStore 0)) o) h
  exact absurd h2 (by decide)

theorem newFrame_snd (s : FMState) (par : Option Ref) (fid : String)
    (cl : SessionId) : (newFrame s par fid cl).2 = s.nextFrameRef := by
  cases par <;> rfl

theorem newFrame_events (s : FMState) (par : Option Ref) (fid : String)
    (cl : SessionId) : (newFrame s par fid cl).1.events = s.events := by
  cases par <;> rfl

theorem newFrame_store_self (s : FMState) (pr : Ref) (fid : String)
    (cl : SessionId) :
    ∃ fdN, (newFrame s (some pr) fid cl).1.frameStore s.nextFrameRef =
        some fdN ∧
      fdN.id = fid ∧ fdN.parent = some pr ∧ fdN.client = cl := by
  by_cases hc : s.nextFrameRef = pr
  · simp only [newFrame, updateClient, setFrame, ← hc]
    simp
  · have hc2 : ¬ pr = s.nextFrameRef := fun h => hc h.symm
    simp only [newFrame, updateClient, setFrame]
    simp [hc, hc2]

theorem onFrameAttached_new {s : FMState} {fid pid : String} {pr : Ref}
    (session : SessionId) (h1 : s.frames fid = none)
    (h2 : s.frames pid = some pr) :
    onFrameAttached s session fid (some pid) =
      some { (newFrame s (some pr) fid session).1 with
        frames := fun k =>
          if k = fid then some (newFrame s (some pr) fid session).2
          else (newFrame s (some pr) fid session).1.frames k,
        events := (newFrame s (some pr) fid session).1.events ++
          [FMEvent.frameAttached (newFrame s (some pr) fid session).2] } := by
  simp [onFrameAttached, h1, h2]

/-- Claim C3 (amended): for a `frameAttached` event whose frameId is
tracked, the handler constructs no new Frame, emits no event and leaves
parent/children untouched; whenever the frame is out-of-process — even
if the delivering session equals the one the frame is already bound to —
it rebinds only the frame's session binding (client plus two re-created
Worlds), and otherwise the state is entirely unchanged; for an untracked
frameId a child Frame is constructed under the parent named by
`parentFrameId`, which must already be tracked (assertion failure
otherwise). -/
theorem frameAttached_spec (s : FMState) (session : SessionId) (fid : String)
    (pfid : Option String) :
    (∀ r fd, s.frames fid = some r → s.frameStore r = some fd →
      ((fd.client = s.client → onFrameAttached s session fid pfid = some s) ∧
       (¬ fd.client = s.client →
         onFrameAttached s session fid pfid = some (updateClient s r session) ∧
         (updateClient s r session).frames = s.frames ∧
         (updateClient s r session).events = s.events ∧
         (updateClient s r session).mainFrame = s.mainFrame ∧
         (∀ x, ¬ x = r →
           (updateClient s r session).frameStore x = s.frameStore x) ∧
         (updateClient s r session).frameStore r =
           some { fd with client := session, mainWorld := s.nextWorldRef, secondaryWorld := s.nextWorldRef + 1 }))) ∧
    (s.frames fid = none →
      ((pfid = none → onFrameAttached s session fid pfid = none) ∧
       (∀ pid, pfid = some pid →
         ((s.frames pid = none → onFrameAttached s session fid pfid = none) ∧
          (∀ pr, s.frames pid = some pr →
            ∃ t fdN, onFrameAttached s session fid pfid = some t ∧
              t.frames fid = some s.nextFrameRef ∧
              t.events = s.events ++ [FMEvent.frameAttached s.nextFrameRef] ∧
              t.frameStore s.nextFrameRef = some fdN ∧
              fdN.id = fid ∧ fdN.parent = some pr ∧
              fdN.client = session))))) := by
  constructor
  · intro r fd hr hfd
    constructor
    · intro hc
      have hF : isOOPFrame s r = false := by simp [isOOPFrame, hfd, hc]
      simp [onFrameAttached, hr, hF]
    · intro hc
      have hT : isOOPFrame s r = true := by simp [isOOPFrame, hfd, hc]
      refine ⟨by simp [onFrameAttached, hr, hT], rfl, rfl, rfl, ?_, ?_⟩
      · intro x hx
        rw [updateClient_store, if_neg hx]
      · rw [updateClient_store, if_pos rfl, hfd]
        rfl
  · intro hnone
    constructor
    · intro hp
      subst hp
      simp [onFrameAttached, hnone]
    · intro pid hp
      subst hp
      constructor
      · intro hpnone
        simp [onFrameAttached, hnone, hpnone]
      · intro pr hpr
        obtain ⟨fdN, hN, hNid, hNpar, hNcl⟩ := newFrame_store_self s pr fid session
        refine ⟨_, fdN, onFrameAttached_new session hnone hpr, ?_, ?_, ?_,
          hNid, hNpar, hNcl⟩
        · show (if fid = fid then some (newFrame s (some pr) fid session).2
            else _) = some s.nextFrameRef
          rw [if_pos rfl, newFrame_snd]
        · show (newFrame s (some pr) fid session).1.events ++
            [FMEvent.frameAttached (newFrame s (some pr) fid session).2] = _
          rw [newFrame_events, newFrame_snd]
        · show (newFrame s (some pr) fid session).1.frameStore
            s.nextFrameRef = some fdN
          exact hN

/-- Witness for C3 (amended) covering both tracked branches and the new
child construction: the out-of-process frame "F" is rebound even by its
own session "s2", a frame owned by the manager session is left alone, and
an untracked child is created under a tracked parent. -/
theorem frameAttached_spec_witness :
    demoOopState.frames "F" = some 0 ∧
    demoOopState.frameStore 0 = some demoOopFrame ∧
    (¬ demoOopFrame.client = demoOopState.client) ∧
    onFrameAttached demoOopState "s2" "F" none =
      some (updateClient demoOopState 0 "s2") ∧
    demoState.frameStore 0 = some demoFrameA ∧
    demoFrameA.client = demoState.client ∧
    onFrameAttached demoState "s9" "A" none = some demoState ∧
    demoState.frames "child1" = none ∧
    (∃ t fdN, onFrameAttached demoState "s1" "child1" (some "A") = some t ∧
      t.frames "child1" = some demoState.nextFrameRef ∧
      t.events = demoState.events ++
        [FMEvent.frameAttached demoState.nextFrameRef] ∧
      t.frameStore demoState.nextFrameRef = some fdN ∧
      fdN.id = "child1" ∧ fdN.parent = some 0 ∧ fdN.client = "s1") :=
  ⟨by decide, by decide, by decide,
    (((frameAttached_spec demoOopState "s2" "F" none).1 0 demoOopFrame
      (by decide) (by decide)).2 (by decide)).1,
    by decide, by decide,
    ((frameAttached_spec demoState "s9" "A" none).1 0 demoFrameA
      (by decide) (by decide)).1 (by decide),
    by decide,
    ((((frameAttached_spec demoState "s1" "child1" (some "A")).2
      (by decide)).2 "A" rfl).2 0 (by decide))⟩

theorem finishCtxCreate_contexts (s : FMState) (p : CtxPayload)
    (session : SessionId) (cl : SessionId) (w : Option Ref) :
    (finishCtxCreate s p session cl w).contexts =
      ctxSet s.contexts (contextKey session p.id) s.nextCtxRef := by
  cases w <;> rfl

theorem finishCtxCreate_nextCtxRef (s : FMState) (p : CtxPayload)
    (session : SessionId) (cl : SessionId) (w : Option Ref) :
    (finishCtxCreate s p session cl w).nextCtxRef = s.nextCtxRef + 1 := by
  cases w <;> rfl

theorem finishCtxCreate_ctxStore_self (s : FMState) (p : CtxPayload)
    (session : SessionId) (cl : SessionId) (w : Option Ref) :
    (finishCtxCreate s p session cl w).ctxStore s.nextCtxRef =
      some ⟨cl, p.id, w⟩ := by
  cases w <;> simp [finishCtxCreate, setWorldContext]

theorem finishCtxCreate_worldStore_some (s : FMState) (p : CtxPayload)
    (session : SessionId) (cl : SessionId) (w : Ref) (x : Ref) :
    (finishCtxCreate s p session cl (some w)).worldStore x =
      if x = w then (s.worldStore w).map (fun wd => { wd with context := some s.nextCtxRef })
      else s.worldStore x := rfl

theorem finishCtxCreate_worldStore_none (s : FMState) (p : CtxPayload)
    (session : SessionId) (cl : SessionId) :
    (finishCtxCreate s p session cl none).worldStore = s.worldStore := rfl

theorem onECC_eq_noframe {s : FMState} {p : CtxPayload} {session : SessionId}
    (hf : ctxFrameOf s p = none) :
    onExecutionContextCreated s p session =
      finishCtxCreate s p session s.client none := by
  simp [onExecutionContextCreated, hf]

theorem onECC_eq_frame {s : FMState} {p : CtxPayload} {session : SessionId}
    {r : Ref} {fd : FrameData} (hf : ctxFrameOf s p = some r)
    (hfd : s.frameStore r = some fd) (hc : fd.client = session) :
    onExecutionContextCreated s p session =
      finishCtxCreate s p session fd.client
        (if (match p.auxData with | some a => a.isDefault | none => false)
         then some fd.mainWorld
         else if p.name = UTILITY_WORLD_NAME ∧
             worldHasContext s fd.secondaryWorld = false
         then some fd.secondaryWorld
         else none) := by
  simp [onExecutionContextCreated, hf, hfd, hc]

theorem onECC_creates {s : FMState} {p : CtxPayload} {session : SessionId}
    (h : contextWillBeCreated s p session) :
    (onExecutionContextCreated s p session).contexts =
      ctxSet s.contexts (contextKey session p.id) s.nextCtxRef ∧
    (onExecutionContextCreated s p session).nextCtxRef = s.nextCtxRef + 1 := by
  unfold contextWillBeCreated at h
  cases hf : ctxFrameOf s p with
  | none =>
    rw [onECC_eq_noframe hf]
    exact ⟨finishCtxCreate_contexts _ _ _ _ _, finishCtxCreate_nextCtxRef _ _ _ _ _⟩
  | some r =>
    simp only [hf] at h
    obtain ⟨fd, hfd, hc⟩ := h
    rw [onECC_eq_frame hf hfd hc]
    exact ⟨finishCtxCreate_contexts _ _ _ _ _, finishCtxCreate_nextCtxRef _ _ _ _ _⟩

/-- Claim C8: for a context-created event naming a tracked frame owned by
the delivering session, an `isDefault` context is bound to the frame's
main World, a context named with the reserved utility-world name is bound
to the frame's secondary World only when that World holds no live
context, and in every other case the context is created with no bound
World.  Binding means: the new context records the World and the World's
context slot is set to the new context. -/
theorem contextCreated_worldBinding (s : FMState) (p : CtxPayload)
    (session : SessionId) (a : AuxData) (fid : String) (r : Ref)
    (fd : FrameData) (wm ws : WorldData) (ha : p.auxData = some a)
    (hfid : a.frameId = some fid) (hr : s.frames fid = some r)
    (hfd : s.frameStore r = some fd) (hc : fd.client = session)
    (hwm : s.worldStore fd.mainWorld = some wm)
    (hws : s.worldStore fd.secondaryWorld = some ws) :
    (a.isDefault = true →
      (onExecutionContextCreated s p session).ctxStore s.nextCtxRef =
        some ⟨fd.client, p.id, some fd.mainWorld⟩ ∧
      (onExecutionContextCreated s p session).worldStore fd.mainWorld =
        some { wm with context := some s.nextCtxRef } ∧
      ctxGet (onExecutionContextCreated s p session).contexts
        (contextKey session p.id) = some s.nextCtxRef) ∧
    (a.isDefault = false → p.name = UTILITY_WORLD_NAME → ws.context = none →
      (onExecutionContextCreated s p session).ctxStore s.nextCtxRef =
        some ⟨fd.client, p.id, some fd.secondaryWorld⟩ ∧
      (onExecutionContextCreated s p session).worldStore fd.secondaryWorld =
        some { ws with context := some s.nextCtxRef } ∧
      ctxGet (onExecutionContextCreated s p session).contexts
        (contextKey session p.id) = some s.nextCtxRef) ∧
    (a.isDefault = false →
      (¬ p.name = UTILITY_WORLD_NAME ∨ ¬ ws.context = none) →
      (onExecutionContextCreated s p session).ctxStore s.nextCtxRef =
        some ⟨fd.client, p.id, none⟩ ∧
      (onExecutionContextCreated s p session).worldStore = s.worldStore ∧
      ctxGet (onExecutionContextCreated s p session).contexts
        (contextKey session p.id) = some s.nextCtxRef) := by
  have hf : ctxFrameOf s p = some r := by
    simp [ctxFrameOf, ha, hfid, hr]
  refine ⟨?_, ?_, ?_⟩
  · intro hd
    have heq := onECC_eq_frame hf hfd hc
    simp only [ha, hd, if_true] at heq
    rw [heq]
    refine ⟨finishCtxCreate_ctxStore_self _ _ _ _ _, ?_, ?_⟩
    · rw [finishCtxCreate_worldStore_some, if_pos rfl, hwm]
      rfl
    · rw [finishCtxCreate_contexts]
      exact ctxGet_set_same _ _ _
  · intro hd hn hctx
    have hhas : worldHasContext s fd.secondaryWorld = false := by
      simp [worldHasContext, hws, hctx]
    have heq := onECC_eq_frame hf hfd hc
    simp only [ha, hd, Bool.false_eq_true, if_false] at heq
    rw [if_pos ⟨hn, hhas⟩] at heq
    rw [heq]
    refine ⟨finishCtxCreate_ctxStore_self _ _ _ _ _, ?_, ?_⟩
    · rw [finishCtxCreate_worldStore_some, if_pos rfl, hws]
      rfl
    · rw [finishCtxCreate_contexts]
      exact ctxGet_set_same _ _ _
  · intro hd hother
    have hcond : ¬ (p.name = UTILITY_WORLD_NAME ∧
        worldHasContext s fd.secondaryWorld = false) := by
      rcases hother with hn | hctx
      · exact fun hh => hn hh.1
      · intro hh
        have : worldHasContext s fd.secondaryWorld = true := by
          cases hcw : ws.context with
          | none => exact absurd hcw hctx
          | some c0 => simp [worldHasContext, hws, hcw]
        rw [this] at hh
        exact absurd hh.2 (by simp)
    have heq := onECC_eq_frame hf hfd hc
    simp only [ha, hd, Bool.false_eq_true, if_false] at heq
    rw [if_neg hcond] at heq
    rw [heq]
    refine ⟨finishCtxCreate_ctxStore_self _ _ _ _ _,
      finishCtxCreate_worldStore_none _ _ _ _, ?_⟩
    rw [finishCtxCreate_contexts]
    exact ctxGet_set_same _ _ _

/-- Witness for C8 on `demoState` (frame "A", worlds 0 and 1, both
without a context): a default context binds world 0, a utility-named
context binds world 1, and a context with an unrecognized name binds no
world. -/
theorem contextCreated_worldBinding_witness :
    ((onExecutionContextCreated demoState ⟨3, "", some ⟨some "A", true⟩⟩
        "s1").ctxStore demoState.nextCtxRef =
      some ⟨demoFrameA.client, 3, some demoFrameA.mainWorld⟩ ∧
     (onExecutionContextCreated demoState ⟨3, "", some ⟨some "A", true⟩⟩
        "s1").worldStore demoFrameA.mainWorld =
      some { frameRef := 0, context := some demoState.nextCtxRef, detached := false } ∧
     ctxGet (onExecutionContextCreated demoState ⟨3, "", some ⟨some "A", true⟩⟩
        "s1").contexts (contextKey "s1" 3) = some demoState.nextCtxRef) ∧
    ((onExecutionContextCreated demoState
        ⟨4, UTILITY_WORLD_NAME, some ⟨some "A", false⟩⟩ "s1").ctxStore
        demoState.nextCtxRef =
      some ⟨demoFrameA.client, 4, some demoFrameA.secondaryWorld⟩) ∧
    ((onExecutionContextCreated demoState ⟨5, "other", some ⟨some "A", false⟩⟩
        "s1").ctxStore demoState.nextCtxRef =
      some ⟨demoFrameA.client, 5, none⟩ ∧
     (onExecutionContextCreated demoState ⟨5, "other", some ⟨some "A", false⟩⟩
        "s1").worldStore = demoState.worldStore) :=
  ⟨(contextCreated_worldBinding demoState ⟨3, "", some ⟨some "A", true⟩⟩ "s1"
      ⟨some "A", true⟩ "A" 0 demoFrameA ⟨0, none, false⟩ ⟨0, none, false⟩
      rfl rfl (by decide) (by decide) (by decide) (by decide) (by decide)).1
    rfl,
   ((contextCreated_worldBinding demoState
      ⟨4, UTILITY_WORLD_NAME, some ⟨some "A", false⟩⟩ "s1"
      ⟨some "A", false⟩ "A" 0 demoFrameA ⟨0, none, false⟩ ⟨0, none, false⟩
      rfl rfl (by decide) (by decide) (by decide) (by decide) (by decide)).2.1
    rfl rfl rfl).1,
   ((contextCreated_worldBinding demoState ⟨5, "other", some ⟨some "A", false⟩⟩
      "s1" ⟨some "A", false⟩ "A" 0 demoFrameA ⟨0, none, false⟩ ⟨0, none, false⟩
      rfl rfl (by decide) (by decide) (by decide) (by decide) (by decide)).2.2
    rfl (Or.inl (by decide))).1,
   ((contextCreated_worldBinding demoState ⟨5, "other", some ⟨some "A", false⟩⟩
      "s1" ⟨some "A", false⟩ "A" 0 demoFrameA ⟨0, none, false⟩ ⟨0, none, false⟩
      rfl rfl (by decide) (by decide) (by decide) (by decide) (by decide)).2.2
    rfl (Or.inl (by decide))).2.1⟩

/-- Claim C4: execution contexts are indexed by the composite
`(session, context id)` key: two distinct sessions delivering
context-created events with the same numeric id produce two distinct
context objects, and `executionContextById` resolves each session to its
own context. -/
theorem executionContext_sessionScoped (s : FMState) (p1 p2 : CtxPayload)
    (sid1 sid2 : SessionId) (n : Nat) (hne : ¬ sid1 = sid2)
    (h1 : p1.id = n) (h2 : p2.id = n)
    (hw1 : contextWillBeCreated s p1 sid1)
    (hw2 : contextWillBeCreated (onExecutionContextCreated s p1 sid1) p2 sid2) :
    executionContextById
        (onExecutionContextCreated (onExecutionContextCreated s p1 sid1) p2 sid2)
        n sid1 = FatalOr.ok s.nextCtxRef ∧
    executionContextById
        (onExecutionContextCreated (onExecutionContextCreated s p1 sid1) p2 sid2)
        n sid2 =
      FatalOr.ok (onExecutionContextCreated s p1 sid1).nextCtxRef ∧
    ¬ s.nextCtxRef = (onExecutionContextCreated s p1 sid1).nextCtxRef := by
  obtain ⟨hc1, hn1⟩ := onECC_creates hw1
  obtain ⟨hc2, hn2⟩ := onECC_creates hw2
  have hkey : ¬ contextKey sid2 n = contextKey sid1 n := by
    intro h
    exact hne (contextKey_inj h).symm
  refine ⟨?_, ?_, ?_⟩
  · unfold executionContextById
    rw [hc2, h2, ctxGet_set_other _ _ _ _ hkey, hc1, h1, ctxGet_set_same]
  · unfold executionContextById
    rw [hc2, h2, ctxGet_set_same]
  · intro hcontra
    rw [hn1] at hcontra
    exact Nat.succ_ne_self _ hcontra.symm

/-- Witness for C4: sessions "sA" and "sB" both create context id 1 on an
empty index; the two lookups return the distinct refs 0 and 1. -/
theorem executionContext_sessionScoped_witness :
    executionContextById
        (onExecutionContextCreated
          (onExecutionContextCreated demoState ⟨1, "", none⟩ "sA")
          ⟨1, "", none⟩ "sB") 1 "sA" = FatalOr.ok demoState.nextCtxRef ∧
    executionContextById
        (onExecutionContextCreated
          (onExecutionContextCreated demoState ⟨1, "", none⟩ "sA")
          ⟨1, "", none⟩ "sB") 1 "sB" =
      FatalOr.ok (onExecutionContextCreated demoState ⟨1, "", none⟩ "sA").nextCtxRef ∧
    ¬ demoState.nextCtxRef =
      (onExecutionContextCreated demoState ⟨1, "", none⟩ "sA").nextCtxRef :=
  executionContext_sessionScoped demoState ⟨1, "", none⟩ ⟨1, "", none⟩
    "sA" "sB" 1 (by decide) rfl rfl
    (by simp [contextWillBeCreated, ctxFrameOf])
    (by simp [contextWillBeCreated, ctxFrameOf])

theorem setWorldContext_worldStore (s : FMState) (w : Ref) (c : Option Ref)
    (x : Ref) : (setWorldContext s w c).worldStore x =
      if x = w then (s.worldStore w).map (fun wd => { wd with context := c })
      else s.worldStore x := rfl

theorem clearLoop_ctxStore (session : SessionId) :
    ∀ (entries : List (String × Ref)) (s : FMState),
    (clearLoop s entries session).ctxStore = s.ctxStore := by
  intro entries
  induction entries with
  | nil => intro s; rfl
  | cons e rest ih =>
    intro s
    obtain ⟨key, c⟩ := e
    show (clearLoop (clearStep s key c session) rest session).ctxStore =
      s.ctxStore
    rw [ih]
    cases h : s.ctxStore c with
    | none => simp [clearStep, h]
    | some cd =>
      obtain ⟨cl, cid, w⟩ := cd
      by_cases hcl : cl = session
      · cases w <;> simp [clearStep, h, hcl, setWorldContext]
      · simp [clearStep, h, hcl]

theorem clearStep_ctxStore (s : FMState) (key : String) (c : Ref)
    (session : SessionId) :
    (clearStep s key c session).ctxStore = s.ctxStore := by
  cases h : s.ctxStore c with
  | none => simp [clearStep, h]
  | some cd =>
    obtain ⟨cl, cid, w⟩ := cd
    by_cases hcl : cl = session
    · cases w <;> simp [clearStep, h, hcl, setWorldContext]
    · simp [clearStep, h, hcl]

theorem clearStep_not_cleared {s : FMState} {key : String} {c : Ref}
    {session : SessionId}
    (h : clearedBySession s.ctxStore session (key, c) = false) :
    clearStep s key c session = s := by
  cases h2 : s.ctxStore c with
  | none => simp [clearStep, h2]
  | some cd =>
    have hcl : ¬ cd.client = session := by
      have := h
      rw [clearedBySession, h2] at this
      simpa using this
    simp [clearStep, h2, hcl]

theorem clearStep_cleared_contexts {s : FMState} {key : String} {c : Ref}
    {session : SessionId} {cd : CtxData} (h2 : s.ctxStore c = some cd)
    (hcl : cd.client = session) :
    (clearStep s key c session).contexts = ctxDelete s.contexts key := by
  obtain ⟨cl, cid, w⟩ := cd
  have hcl2 : cl = session := hcl
  cases w with
  | none => simp [clearStep, h2, hcl2, setWorldContext]
  | some w0 => simp [clearStep, h2, hcl2, setWorldContext]

theorem clearStep_worldStore_pointwise (s : FMState) (key : String) (c : Ref)
    (session : SessionId) (x : Ref) :
    (clearStep s key c session).worldStore x = s.worldStore x ∨
    (clearStep s key c session).worldStore x =
      (s.worldStore x).map (fun wd => { wd with context := none }) := by
  cases h2 : s.ctxStore c with
  | none => left; simp [clearStep, h2]
  | some cd =>
    obtain ⟨cl, cid, cw⟩ := cd
    by_cases hcl : cl = session
    · cases cw with
      | none => left; simp [clearStep, h2, hcl]
      | some w0 =>
        by_cases hx : x = w0
        · right
          subst hx
          simp [clearStep, h2, hcl, setWorldContext]
        · left
          simp [clearStep, h2, hcl, setWorldContext, hx]
    · left; simp [clearStep, h2, hcl]

theorem clearStep_world_cleared {s : FMState} {key : String} {c : Ref}
    {session : SessionId} {cd : CtxData} {w : Ref}
    (h2 : s.ctxStore c = some cd) (hcl : cd.client = session)
    (hw : cd.world = some w) (hex : ∃ wd, s.worldStore w = some wd) :
    ∃ wd2, (clearStep s key c session).worldStore w = some wd2 ∧
      wd2.context = none := by
  obtain ⟨wd, hwd⟩ := hex
  obtain ⟨cl, cid, cw⟩ := cd
  have hcl2 : cl = session := hcl
  have hw2 : cw = some w := hw
  subst hw2
  refine ⟨{ wd with context := none }, ?_, rfl⟩
  simp [clearStep, h2, hcl2, setWorldContext, hwd]

theorem clearStep_world_exists {s : FMState} {key : String} {c : Ref}
    {session : SessionId} {w : Ref} (hex : ∃ wd, s.worldStore w = some wd) :
    ∃ wd2, (clearStep s key c session).worldStore w = some wd2 := by
  obtain ⟨wd, hwd⟩ := hex
  rcases clearStep_worldStore_pointwise s key c session w with hp | hp
  · exact ⟨wd, by rw [hp]; exact hwd⟩
  · exact ⟨{ wd with context := none }, by rw [hp, hwd]; rfl⟩

theorem clearLoop_world_none_pres (session : SessionId) :
    ∀ (entries : List (String × Ref)) (s : FMState) (w : Ref),
    (∃ wd, s.worldStore w = some wd ∧ wd.context = none) →
    ∃ wd2, (clearLoop s entries session).worldStore w = some wd2 ∧
      wd2.context = none := by
  intro entries
  induction entries with
  | nil => intro s w hex; exact hex
  | cons e rest ih =>
    intro s w hex
    obtain ⟨key, c⟩ := e
    show ∃ wd2, (clearLoop (clearStep s key c session) rest session).worldStore w = some wd2 ∧ wd2.context = none
    apply ih
    obtain ⟨wd, hwd, hctx⟩ := hex
    rcases clearStep_worldStore_pointwise s key c session w with hp | hp
    · exact ⟨wd, by rw [hp]; exact hwd, hctx⟩
    · refine ⟨{ wd with context := none }, ?_, rfl⟩
      rw [hp, hwd]
      rfl

theorem clearLoop_world_exists (session : SessionId) :
    ∀ (entries : List (String × Ref)) (s : FMState) (w : Ref),
    (∃ wd, s.worldStore w = some wd) →
    ∃ wd2, (clearLoop s entries session).worldStore w = some wd2 := by
  intro entries
  induction entries with
  | nil => intro s w hex; exact hex
  | cons e rest ih =>
    intro s w hex
    obtain ⟨key, c⟩ := e
    show ∃ wd2, (clearLoop (clearStep s key c session) rest session).worldStore w = some wd2
    apply ih
    obtain ⟨wd, hwd⟩ := hex
    rcases clearStep_worldStore_pointwise s key c session w with hp | hp
    · exact ⟨wd, by rw [hp]; exact hwd⟩
    · exact ⟨{ wd with context := none }, by rw [hp, hwd]; rfl⟩

theorem clearLoop_world_cleared (session : SessionId) :
    ∀ (entries : List (String × Ref)) (s : FMState) (k : String) (c : Ref)
      (cd : CtxData) (w : Ref),
    (k, c) ∈ entries → s.ctxStore c = some cd → cd.client = session →
    cd.world = some w → (∃ wd, s.worldStore w = some wd) →
    ∃ wd2, (clearLoop s entries session).worldStore w = some wd2 ∧
      wd2.context = none := by
  intro entries
  induction entries with
  | nil =>
    intro s k c cd w hmem
    exact absurd hmem (List.not_mem_nil _)
  | cons e rest ih =>
    intro s k c cd w hmem h2 hcl hw hex
    obtain ⟨key, c1⟩ := e
    show ∃ wd2, (clearLoop (clearStep s key c1 session) rest session).worldStore w = some wd2 ∧ wd2.context = none
    rcases List.mem_cons.mp hmem with heq | hmem2
    · have hk : k = key := congrArg Prod.fst heq
      have hc : c = c1 := congrArg Prod.snd heq
      subst hc
      exact clearLoop_world_none_pres session rest _ w
        (clearStep_world_cleared h2 hcl hw hex)
    · refine ih _ k c cd w hmem2 ?_ hcl hw ?_
      · rw [clearStep_ctxStore]; exact h2
      · exact clearStep_world_exists hex

theorem clearLoop_contexts_lookup (session : SessionId) :
    ∀ (entries : List (String × Ref)) (s : FMState) (k : String),
    ctxGet (clearLoop s entries session).contexts k =
      if ∃ e, e ∈ entries ∧ e.1 = k ∧
          clearedBySession s.ctxStore session e = true
      then none else ctxGet s.contexts k := by
  intro entries
  induction entries with
  | nil =>
    intro s k
    simp [clearLoop]
  | cons e rest ih =>
    intro s k
    obtain ⟨key, c⟩ := e
    show ctxGet (clearLoop (clearStep s key c session) rest session).contexts k = _
    rw [ih, clearStep_ctxStore]
    cases hcb : clearedBySession s.ctxStore session (key, c) with
    | false =>
      rw [clearStep_not_cleared hcb]
      have hiff : (∃ e, e ∈ rest ∧ e.1 = k ∧
          clearedBySession s.ctxStore session e = true) ↔
          (∃ e, e ∈ ((key, c) :: rest) ∧ e.1 = k ∧
            clearedBySession s.ctxStore session e = true) := by
        constructor
        · rintro ⟨e2, he, hk1, hk2⟩
          exact ⟨e2, List.mem_cons_of_mem _ he, hk1, hk2⟩
        · rintro ⟨e2, he, hk1, hk2⟩
          rcases List.mem_cons.mp he with heq | he2
          · subst heq
            rw [hcb] at hk2
            exact absurd hk2 (by simp)
          · exact ⟨e2, he2, hk1, hk2⟩
      rw [if_congr hiff rfl rfl]
    | true =>
      have hcd : ∃ cd, s.ctxStore c = some cd ∧ cd.client = session := by
        have hcb2 := hcb
        simp only [clearedBySession] at hcb2
        cases h2 : s.ctxStore c with
        | none => rw [h2] at hcb2; exact absurd hcb2 (by simp)
        | some cd =>
          rw [h2] at hcb2
          exact ⟨cd, rfl, by simpa using hcb2⟩
      obtain ⟨cd, h2, hcl⟩ := hcd
      rw [clearStep_cleared_contexts h2 hcl]
      by_cases hex : ∃ e, e ∈ rest ∧ e.1 = k ∧
          clearedBySession s.ctxStore session e = true
      · rw [if_pos hex]
        obtain ⟨e2, he, hk1, hk2⟩ := hex
        rw [if_pos ⟨e2, List.mem_cons_of_mem _ he, hk1, hk2⟩]
      · rw [if_neg hex]
        by_cases hk : key = k
        · subst hk
          rw [ctxGet_delete_same,
            if_pos ⟨(key, c), List.mem_cons_self _ _, rfl, hcb⟩]
        · rw [ctxGet_delete_other _ _ _ hk]
          rw [if_neg ?_]
          rintro ⟨e2, he, hk1, hk2⟩
          rcases List.mem_cons.mp he with heq | he2
          · subst heq
            exact hk hk1
          · exact hex ⟨e2, he2, hk1, hk2⟩

theorem ctxGet_nodup_mem_eq :
    ∀ {m : List (String × Ref)} {k : String} {v c : Ref},
    (m.map Prod.fst).Nodup → (k, v) ∈ m → ctxGet m k = some c → v = c := by
  intro m
  induction m with
  | nil =>
    intro k v c _ hmem
    exact absurd hmem (List.not_mem_nil _)
  | cons e rest ih =>
    intro k v c hnd hmem hget
    obtain ⟨k1, v1⟩ := e
    rw [List.map_cons, List.nodup_cons] at hnd
    obtain ⟨hk1notin, hndrest⟩ := hnd
    rcases List.mem_cons.mp hmem with heq | hmem2
    · have hk : k = k1 := congrArg Prod.fst heq
      have hv : v = v1 := congrArg Prod.snd heq
      subst hk
      subst hv
      rw [ctxGet, if_pos rfl] at hget
      exact Option.some.inj hget
    · by_cases hk1 : k1 = k
      · subst hk1
        have : k1 ∈ rest.map Prod.fst :=
          List.mem_map.mpr ⟨(k1, v), hmem2, rfl⟩
        exact absurd this hk1notin
      · rw [ctxGet, if_neg hk1] at hget
        exact ih hndrest hmem2 hget

/-- Claim C9: an `executionContextsCleared` event for a session removes
from the context index exactly the contexts whose client is that session
(clearing each such context's bound World), and leaves every context of
any other session present in the index with its context object
untouched. -/
theorem contextsCleared_sessionScoped (s : FMState) (session : SessionId)
    (hnd : (s.contexts.map Prod.fst).Nodup) :
    (onExecutionContextsCleared s session).ctxStore = s.ctxStore ∧
    (∀ k c cd, ctxGet s.contexts k = some c → s.ctxStore c = some cd →
      ((¬ cd.client = session →
         ctxGet (onExecutionContextsCleared s session).contexts k = some c) ∧
       (cd.client = session →
         ctxGet (onExecutionContextsCleared s session).contexts k = none ∧
         (∀ w wd, cd.world = some w → s.worldStore w = some wd →
           ∃ wd2, (onExecutionContextsCleared s session).worldStore w =
               some wd2 ∧ wd2.context = none)))) := by
  refine ⟨clearLoop_ctxStore session s.contexts s, ?_⟩
  intro k c cd hget hstore
  constructor
  · intro hncl
    show ctxGet (clearLoop s s.contexts session).contexts k = some c
    rw [clearLoop_contexts_lookup]
    rw [if_neg ?_]
    · exact hget
    rintro ⟨e2, he, hk1, hk2⟩
    obtain ⟨k1, v1⟩ := e2
    have hk : k1 = k := hk1
    subst hk
    have hv : v1 = c := ctxGet_nodup_mem_eq hnd he hget
    subst hv
    simp only [clearedBySession, hstore] at hk2
    exact hncl (by simpa using hk2)
  · intro hcl
    constructor
    · show ctxGet (clearLoop s s.contexts session).contexts k = none
      have hcbt : clearedBySession s.ctxStore session (k, c) = true := by
        simp [clearedBySession, hstore, hcl]
      rw [clearLoop_contexts_lookup,
        if_pos ⟨(k, c), ctxGet_mem hget, rfl, hcbt⟩]
    · intro w wd hw hwd
      exact clearLoop_world_cleared session s.contexts s k c cd w
        (ctxGet_mem hget) hstore hcl hw ⟨wd, hwd⟩

/-- Witness for C9 on `demoCtxState`: clearing session "sA" removes its
context (ref 0) and clears world 10, while the context of "sB" (ref 1)
stays indexed and its world stays bound. -/
theorem contextsCleared_sessionScoped_witness :
    (demoCtxState.contexts.map Prod.fst).Nodup ∧
    ((onExecutionContextsCleared demoCtxState "sA").ctxStore =
        demoCtxState.ctxStore ∧
      (∀ k c cd, ctxGet demoCtxState.contexts k = some c →
        demoCtxState.ctxStore c = some cd →
        ((¬ cd.client = "sA" →
           ctxGet (onExecutionContextsCleared demoCtxState "sA").contexts k =
             some c) ∧
         (cd.client = "sA" →
           ctxGet (onExecutionContextsCleared demoCtxState "sA").contexts k =
             none ∧
           (∀ w wd, cd.world = some w → demoCtxState.worldStore w = some wd →
             ∃ wd2, (onExecutionContextsCleared demoCtxState "sA").worldStore w =
                 some wd2 ∧ wd2.context = none))))) ∧
    (onExecutionContextsCleared demoCtxState "sA").contexts =
      [(contextKey "sB" 1, 1)] ∧
    (onExecutionContextsCleared demoCtxState "sA").worldStore 10 =
      some ⟨0, none, false⟩ ∧
    (onExecutionContextsCleared demoCtxState "sA").worldStore 11 =
      some ⟨0, some 1, false⟩ :=
  ⟨by decide, contextsCleared_sessionScoped demoCtxState "sA" (by decide),
    by decide, by decide, by decide⟩

/-- Claim C7: `navigateFrame` disposes the watcher before returning or
throwing; it fails exactly when the navigate command reported an error or
errorText, or the watcher settled with a timeout or error-indicating
termination; otherwise it returns `navigationResponse()`, which is null
exactly when the navigation target was `about:blank` or a same-document
hash change. -/
theorem navigateFrame_spec (navWinsRace : Bool) (navResult : Option PpError)
    (w : LifecycleWatcherModel)
    (hresp : w.navResponse = none ↔ w.nullBecauseAboutBlankOrHash = true) :
    ((navigateFrame navWinsRace navResult w).1.disposed = true) ∧
    ((∃ e, (navigateFrame navWinsRace navResult w).2 = Except.error e) ↔
      (¬ navResult = none ∨ ¬ watcherErrorSignal w = none)) ∧
    (navResult = none → watcherErrorSignal w = none →
      (navigateFrame navWinsRace navResult w).2 = Except.ok w.navResponse ∧
      ((navigateFrame navWinsRace navResult w).2 = Except.ok none ↔
        w.nullBecauseAboutBlankOrHash = true)) := by
  cases hn : navResult with
  | none =>
    cases hw : watcherErrorSignal w with
    | none => cases navWinsRace <;> simp [navigateFrame, hn, hw, hresp]
    | some e2 => cases navWinsRace <;> simp [navigateFrame, hn, hw]
  | some e1 =>
    cases hw : watcherErrorSignal w with
    | none => cases navWinsRace <;> simp [navigateFrame, hn, hw]
    | some e2 => cases navWinsRace <;> simp [navigateFrame, hn, hw]

/-- Witness for C7: a successful new-document navigation returns the
response handle and is not null (the target was not `about:blank`); a
watcher timeout makes the call fail. -/
theorem navigateFrame_spec_witness :
    (demoWatcher.navResponse = none ↔
      demoWatcher.nullBecauseAboutBlankOrHash = true) ∧
    (navigateFrame true none demoWatcher).1.disposed = true ∧
    (navigateFrame true none demoWatcher).2 =
      Except.ok demoWatcher.navResponse ∧
    ¬ (navigateFrame true none demoWatcher).2 = Except.ok none ∧
    (∃ e, (navigateFrame true none demoTimeoutWatcher).2 = Except.error e) :=
  ⟨by decide, (navigateFrame_spec true none demoWatcher (by decide)).1,
    ((navigateFrame_spec true none demoWatcher (by decide)).2.2 rfl rfl).1,
    fun h => by
      have := ((navigateFrame_spec true none demoWatcher (by decide)).2.2
        rfl rfl).2.mp h
      exact absurd this (by decide),
    (navigateFrame_spec true none demoTimeoutWatcher (by decide)).2.1.mpr
      (Or.inr (by decide))⟩
